import Mathlib

/-!
Verification of the AccordKit OpenAI provider adapter.

The development shallowly embeds the adapter sources: option resolution
(internal/options.ts), content normalization (internal/normalize.ts), result
summaries (internal/results.ts), event emission (internal/emitters.ts), the
streaming resolver (internal/stream.ts), the chat wrapper (openaiAdapter.ts),
the images wrapper, and the idempotent wrapping helpers (internal/wrap.ts).
Recorder calls are modelled as a list of operations; promises and thrown
values are modelled with an explicit result type.
-/

namespace ProviderOpenAI

/-- Correlation identifiers shared by every event of one logical call. -/
structure TraceContext where
  traceId : Nat
  spanId : Nat
  deriving DecidableEq

/-- JavaScript-like runtime values used to model dynamic payload fields. -/
inductive Value where
  | vNull : Value
  | vUndefined : Value
  | vBool : Bool → Value
  | vNum : Int → Value
  | vStr : String → Value
  | vArr : List Value → Value
  | vObj : List (String × Value) → Value

/-- Truth of the JavaScript test value == null. -/
def Value.isNullish : Value → Bool
  | .vNull => true
  | .vUndefined => true
  | _ => false

/-- Field lookup in an object value. -/
def lookupField : List (String × Value) → String → Option Value
  | [], _ => none
  | (k, v) :: rest, key => if k = key then some v else lookupField rest key

/-- External JavaScript primitives the adapter calls: JSON.parse (none models a
throw), JSON.stringify (none models a throw), and String coercion. -/
structure JsRuntime where
  jsonParse : String → Option Value
  jsonStringify : Value → Option String
  toStringCoerce : Value → String

/-- Thrown JavaScript values as the adapter distinguishes them: an Error
carrying name, message and stack; a plain string; or any other value. -/
inductive ErrValue where
  | err : String → String → String → ErrValue
  | str : String → ErrValue
  | other : Value → ErrValue

/-- Settlement of a JavaScript promise or call: a value or a thrown error. -/
inductive JsResult (α : Type) where
  | ok : α → JsResult α
  | thrown : ErrValue → JsResult α

/-- Nullish coalescing, the JavaScript a ?? b on optional fields. -/
def jsCoalesce {α : Type} (a b : Option α) : Option α :=
  match a with
  | some x => some x
  | none => b

/-- Truthiness filter on an optional string: the empty string is falsy. -/
def truthyStr : Option String → Option String
  | some s => if s = "" then none else some s
  | none => none

/-- Optional string lifted to a value, absent mapping to undefined. -/
def strOrUndef : Option String → Value
  | some s => .vStr s
  | none => .vUndefined

/-- Optional string as a value field. -/
def optStrVal : Option String → Value
  | some s => .vStr s
  | none => .vUndefined

/-- Optional integer as a value field. -/
def optIntVal : Option Int → Value
  | some n => .vNum n
  | none => .vUndefined

/-- Normalized content paired with a format hint (internal/normalize.ts). -/
structure NormalizedContent where
  content : String
  format : Option String
  deriving DecidableEq

/-- Role values accepted by the AccordKit message contract. -/
def MESSAGE_ROLES : List String := ["system", "user", "assistant", "tool"]

/-- Coercion of an arbitrary role value into the AccordKit role enum
(internal/normalize.ts toMessageRole). -/
def toMessageRole (value : Value) (fallback : String) : String :=
  match value with
  | .vStr s => if MESSAGE_ROLES.contains s then s else fallback
  | _ => fallback

/-- Normalization of OpenAI chat content into a string plus format pair
(internal/normalize.ts normalizeContent). -/
def normalizeContent (rt : JsRuntime) (content : Value) : NormalizedContent :=
  match content with
  | .vStr s => { content := s, format := some "text" }
  | .vNull => { content := "", format := some "text" }
  | .vUndefined => { content := "", format := some "text" }
  | .vArr xs =>
      match rt.jsonStringify (.vArr xs) with
      | some s => { content := s, format := some "json" }
      | none => { content := rt.toStringCoerce (.vArr xs), format := some "json" }
  | .vObj fs =>
      match rt.jsonStringify (.vObj fs) with
      | some s => { content := s, format := some "json" }
      | none => { content := rt.toStringCoerce (.vObj fs), format := some "json" }
  | v => { content := rt.toStringCoerce v, format := some "text" }

/-- Parse of tool arguments encoded as JSON, falling back to the original
string; a non-string input goes through value ?? null
(internal/normalize.ts safeParseJSON). -/
def safeParseJSON (rt : JsRuntime) (value : Value) : Value :=
  match value with
  | .vStr s =>
      match rt.jsonParse s with
      | some parsed => parsed
      | none => .vStr s
  | .vNull => .vNull
  | .vUndefined => .vNull
  | v => v

/-- Conversion of unknown error values into a human-readable string
(internal/results.ts toErrorMessage). -/
def toErrorMessage (rt : JsRuntime) (e : ErrValue) : String :=
  match e with
  | .err _ message _ => message
  | .str s => s
  | .other v =>
      match rt.jsonStringify v with
      | some s => s
      | none => rt.toStringCoerce v

/-- Structured representation of arbitrary thrown values
(internal/results.ts serializeError). -/
def serializeError (rt : JsRuntime) (e : ErrValue) : Value :=
  match e with
  | .err name message stack =>
      .vObj [("name", .vStr name), ("message", .vStr message), ("stack", .vStr stack)]
  | e => .vObj [("message", .vStr (toErrorMessage rt e))]

/-- Extraction of the message field of a serialized error object. -/
def messageOfError (v : Value) : Option Value :=
  match v with
  | .vObj fs => lookupField fs "message"
  | _ => none

/-- Function descriptor of a tool call (internal/types.ts ChatToolCall). -/
structure ToolFunction where
  name : Option String
  arguments : Option String

/-- Tool call metadata in a chat completion choice. -/
structure ChatToolCall where
  id : Option String
  func : Option ToolFunction

/-- Legacy single function-call payload embedded in a chat message. -/
structure LegacyFunctionCall where
  name : Option String
  arguments : Option String

/-- Minimal subset of an OpenAI chat message (internal/types.ts). -/
structure ChatMessage where
  role : Value
  content : Value
  name : Option String
  tool_calls : Option (List ChatToolCall)
  function_call : Option LegacyFunctionCall

/-- A single choice of a chat completion response. -/
structure ChatCompletionChoice where
  index : Option Int
  finish_reason : Option String
  message : Option ChatMessage

/-- Token accounting block of a completion. -/
structure ChatUsage where
  prompt_tokens : Option Int
  completion_tokens : Option Int
  total_tokens : Option Int

/-- Portions of a chat completion used by the instrumentation helpers. -/
structure ChatCompletionLike where
  id : Option String
  model : Option String
  created : Option Int
  choices : Option (List ChatCompletionChoice)
  usage : Option ChatUsage

/-- Compact summary of one choice inside a tool-result output
(internal/results.ts summarizeResult). -/
def summarizeChoice (choice : ChatCompletionChoice) : Value :=
  .vObj [("index", optIntVal choice.index),
         ("finish_reason", optStrVal choice.finish_reason),
         ("hasMessage", .vBool choice.message.isSome)]

/-- Usage block attached to a tool-result summary. -/
def usageVal : Option ChatUsage → Value
  | none => .vUndefined
  | some u => .vObj [("prompt_tokens", optIntVal u.prompt_tokens),
                     ("completion_tokens", optIntVal u.completion_tokens),
                     ("total_tokens", optIntVal u.total_tokens)]

/-- Compact summary of a completion for tool-result payloads
(internal/results.ts summarizeResult). -/
def summarizeResult (result : Option ChatCompletionLike) : Value :=
  match result with
  | none => .vNull
  | some r =>
      .vObj [("id", optStrVal r.id),
             ("model", optStrVal r.model),
             ("created", optIntVal r.created),
             ("choices", match r.choices with
                         | some cs => .vArr (cs.map summarizeChoice)
                         | none => .vUndefined),
             ("usage", usageVal r.usage)]

/-- Caller-facing configuration knobs (internal/options.ts), absent fields
standing for keys the caller did not supply. -/
structure OpenAIAdapterOptions where
  enableResponsesApi : Option Bool := none
  enableImagesApi : Option Bool := none
  enableAudioApi : Option Bool := none
  provider : Option String := none
  operationName : Option String := none
  emitPrompts : Option Bool := none
  emitResponses : Option Bool := none
  emitToolCalls : Option Bool := none
  emitUsage : Option Bool := none
  emitToolResults : Option Bool := none
  emitSpan : Option Bool := none

/-- Fully resolved configuration with defaults applied. -/
structure ResolvedOpenAIOptions where
  enableResponsesApi : Bool
  enableImagesApi : Bool
  enableAudioApi : Bool
  provider : String
  operationName : String
  emitPrompts : Bool
  emitResponses : Bool
  emitToolCalls : Bool
  emitUsage : Bool
  emitToolResults : Bool
  emitSpan : Bool
  deriving DecidableEq

/-- Default instrumentation strategy (internal/options.ts DEFAULT_OPTIONS). -/
def DEFAULT_OPTIONS : ResolvedOpenAIOptions :=
  { enableResponsesApi := false
    enableImagesApi := false
    enableAudioApi := false
    provider := "openai"
    operationName := "openai.chat.completions.create"
    emitPrompts := true
    emitResponses := true
    emitToolCalls := true
    emitUsage := true
    emitToolResults := true
    emitSpan := true }

/-- Overlay of caller options on the defaults (internal/options.ts
resolveOptions, the object spread over DEFAULT_OPTIONS). -/
def resolveOptions (options : OpenAIAdapterOptions) : ResolvedOpenAIOptions :=
  { enableResponsesApi := options.enableResponsesApi.getD DEFAULT_OPTIONS.enableResponsesApi
    enableImagesApi := options.enableImagesApi.getD DEFAULT_OPTIONS.enableImagesApi
    enableAudioApi := options.enableAudioApi.getD DEFAULT_OPTIONS.enableAudioApi
    provider := options.provider.getD DEFAULT_OPTIONS.provider
    operationName := options.operationName.getD DEFAULT_OPTIONS.operationName
    emitPrompts := options.emitPrompts.getD DEFAULT_OPTIONS.emitPrompts
    emitResponses := options.emitResponses.getD DEFAULT_OPTIONS.emitResponses
    emitToolCalls := options.emitToolCalls.getD DEFAULT_OPTIONS.emitToolCalls
    emitUsage := options.emitUsage.getD DEFAULT_OPTIONS.emitUsage
    emitToolResults := options.emitToolResults.getD DEFAULT_OPTIONS.emitToolResults
    emitSpan := options.emitSpan.getD DEFAULT_OPTIONS.emitSpan }

/-- Payload of a recorded message event (internal/payloads MessagePayload). -/
structure MessagePayload where
  provider : String
  model : Option String
  role : String
  content : String
  format : Option String
  requestId : Option String
  extName : Option String
  ctx : TraceContext

/-- Payload of a recorded tool-call event. -/
structure ToolCallPayload where
  provider : String
  model : Option String
  tool : String
  input : Value
  requestId : Option String
  extId : Option String
  extFinishReason : Option String
  ctx : TraceContext

/-- Payload of a recorded usage event. -/
structure UsagePayload where
  provider : String
  model : Option String
  requestId : Option String
  inputTokens : Option Int
  outputTokens : Option Int
  extTotalTokens : Option Int
  ctx : TraceContext

/-- Payload of a recorded tool-result event. -/
structure ToolResultPayload where
  provider : String
  model : Option String
  requestId : Option String
  tool : String
  output : Value
  ok : Bool
  latencyMs : Int
  ctx : TraceContext

/-- Attributes attached when a span is closed. -/
structure SpanAttrs where
  latencyMs : Int
  model : Option String
  stream : Option Bool
  error : Option String

/-- One recorder operation issued by the adapter. The callUnderlying marker
tracks the moment the underlying client method is invoked, so ordering
properties can relate emission to the call itself. -/
inductive RecOp where
  | message : MessagePayload → RecOp
  | toolCall : ToolCallPayload → RecOp
  | usage : UsagePayload → RecOp
  | toolResult : ToolResultPayload → RecOp
  | spanEnd : String → SpanAttrs → TraceContext → RecOp
  | callUnderlying : RecOp

/-- Kind tag of a recorder operation. -/
inductive OpKind where
  | message
  | toolCall
  | usage
  | toolResult
  | spanEnd
  | marker
  deriving DecidableEq

/-- Kind of a recorder operation. -/
def RecOp.kind : RecOp → OpKind
  | .message _ => .message
  | .toolCall _ => .toolCall
  | .usage _ => .usage
  | .toolResult _ => .toolResult
  | .spanEnd _ _ _ => .spanEnd
  | .callUnderlying => .marker

/-- Trace context carried by a recorder operation, none for the marker. -/
def RecOp.ctxOf : RecOp → Option TraceContext
  | .message p => some p.ctx
  | .toolCall p => some p.ctx
  | .usage p => some p.ctx
  | .toolResult p => some p.ctx
  | .spanEnd _ _ c => some c
  | .callUnderlying => none

/-- Operations of a given kind inside a trace. -/
def filterKind (k : OpKind) (t : List RecOp) : List RecOp :=
  t.filter (fun op => decide (op.kind = k))

/-- Number of operations of a given kind inside a trace. -/
def countKind (k : OpKind) (t : List RecOp) : Nat :=
  (filterKind k t).length

/-- Strongly typed message payload builder (internal/emitters.ts
buildMessagePayload); format, requestId and name are attached only when
truthy. -/
def buildMessagePayload (provider : String) (model : Option String) (role : String)
    (normalized : NormalizedContent) (ctx : TraceContext)
    (requestId : Option String) (name : Option String) : MessagePayload :=
  { provider := provider
    model := model
    role := role
    content := normalized.content
    format := truthyStr normalized.format
    requestId := truthyStr requestId
    extName := truthyStr name
    ctx := ctx }

/-- Message events for input prompts, one per supplied message, emitted prior
to the underlying call (internal/emitters.ts emitPromptMessages). -/
def emitPromptMessages (rt : JsRuntime) (opts : ResolvedOpenAIOptions)
    (messages : Option (List ChatMessage)) (ctx : TraceContext)
    (model : Option String) : List RecOp :=
  if !opts.emitPrompts then []
  else
    match messages with
    | none => []
    | some msgs =>
        msgs.map (fun msg =>
          RecOp.message (buildMessagePayload opts.provider model
            (toMessageRole msg.role "user") (normalizeContent rt msg.content)
            ctx none msg.name))

/-- Tool-call entry that passes the emitChoice guard: a present function
descriptor with a truthy name, paired with its raw arguments. -/
def activeToolCall (call : ChatToolCall) : Option (String × Option String) :=
  match call.func with
  | some fn =>
      match truthyStr fn.name with
      | some nm => some (nm, fn.arguments)
      | none => none
  | none => none

/-- Assistant message event of one choice, present when response emission is
enabled and the normalized content is truthy (the first half of
internal/emitters.ts emitChoice). -/
def choiceMessageOps (rt : JsRuntime) (opts : ResolvedOpenAIOptions)
    (ctx : TraceContext) (resolvedModel : Option String)
    (requestId : Option String) (message : ChatMessage) : List RecOp :=
  if opts.emitResponses then
    let normalized := normalizeContent rt message.content
    if normalized.content ≠ "" then
      [RecOp.message (buildMessagePayload opts.provider resolvedModel
        (toMessageRole message.role "assistant") normalized ctx requestId none)]
    else []
  else []

/-- Tool-call events for the tool_calls list of a choice message, one per
entry with a named function (internal/emitters.ts emitChoice). -/
def toolCallOps (rt : JsRuntime) (opts : ResolvedOpenAIOptions)
    (ctx : TraceContext) (resolvedModel : Option String)
    (requestId : Option String) (finishReason : Option String)
    (toolCalls : Option (List ChatToolCall)) : List RecOp :=
  match toolCalls with
  | some calls =>
      calls.filterMap (fun call =>
        (activeToolCall call).map (fun p =>
          RecOp.toolCall
            { provider := opts.provider
              model := resolvedModel
              tool := p.1
              input := safeParseJSON rt (strOrUndef p.2)
              requestId := requestId
              extId := call.id
              extFinishReason := finishReason
              ctx := ctx }))
  | none => []

/-- Legacy tool-call event for a truthy function-call name, with the raw
arguments of the legacy field (the guard of the function_call branch of
internal/emitters.ts emitChoice). -/
def legacyNameOps (rt : JsRuntime) (opts : ResolvedOpenAIOptions)
    (ctx : TraceContext) (resolvedModel : Option String)
    (requestId : Option String) (finishReason : Option String)
    (nameOpt : Option String) (args : Option String) : List RecOp :=
  match nameOpt with
  | some nm =>
      [RecOp.toolCall
        { provider := opts.provider
          model := resolvedModel
          tool := nm
          input := safeParseJSON rt (strOrUndef args)
          requestId := requestId
          extId := none
          extFinishReason := finishReason
          ctx := ctx }]
  | none => []

/-- Additional tool-call event for the legacy function_call field when its
name is truthy (internal/emitters.ts emitChoice). -/
def legacyToolCallOps (rt : JsRuntime) (opts : ResolvedOpenAIOptions)
    (ctx : TraceContext) (resolvedModel : Option String)
    (requestId : Option String) (finishReason : Option String)
    (fcall : Option LegacyFunctionCall) : List RecOp :=
  match fcall with
  | some fc =>
      legacyNameOps rt opts ctx resolvedModel requestId finishReason
        (truthyStr fc.name) fc.arguments
  | none => []

/-- Assistant message and tool metadata for one completion choice
(internal/emitters.ts emitChoice). -/
def emitChoice (rt : JsRuntime) (opts : ResolvedOpenAIOptions)
    (ctx : TraceContext) (resolvedModel : Option String)
    (requestId : Option String) (choice : ChatCompletionChoice) : List RecOp :=
  match choice.message with
  | none => []
  | some message =>
      let msgOps := choiceMessageOps rt opts ctx resolvedModel requestId message
      if !opts.emitToolCalls then msgOps
      else
        msgOps
        ++ toolCallOps rt opts ctx resolvedModel requestId choice.finish_reason
             message.tool_calls
        ++ legacyToolCallOps rt opts ctx resolvedModel requestId choice.finish_reason
             message.function_call

/-- Per-choice events of a completion, emitted only when response emission is
enabled (the choices loop of internal/emitters.ts
emitCompletionArtifacts). -/
def choicesOps (rt : JsRuntime) (opts : ResolvedOpenAIOptions)
    (ctx : TraceContext) (resolvedModel : Option String)
    (requestId : Option String)
    (choices : Option (List ChatCompletionChoice)) : List RecOp :=
  if opts.emitResponses then
    match choices with
    | some chs => (chs.map (emitChoice rt opts ctx resolvedModel requestId)).flatten
    | none => []
  else []

/-- Usage event of a completion, one when token accounting is present and
usage emission is enabled (internal/emitters.ts emitCompletionArtifacts). -/
def usageOps (opts : ResolvedOpenAIOptions) (ctx : TraceContext)
    (resolvedModel : Option String) (requestId : Option String)
    (usage : Option ChatUsage) : List RecOp :=
  match usage with
  | some u =>
      if opts.emitUsage then
        [RecOp.usage
          { provider := opts.provider
            model := resolvedModel
            requestId := requestId
            inputTokens := u.prompt_tokens
            outputTokens := u.completion_tokens
            extTotalTokens := u.total_tokens
            ctx := ctx }]
      else []
  | none => []

/-- Events derived from a completion response: choice events, then the usage
event (internal/emitters.ts emitCompletionArtifacts). -/
def emitCompletionArtifacts (rt : JsRuntime) (opts : ResolvedOpenAIOptions)
    (completion : Option ChatCompletionLike) (ctx : TraceContext)
    (model : Option String) : List RecOp :=
  match completion with
  | none => []
  | some c =>
      let resolvedModel := jsCoalesce c.model model
      choicesOps rt opts ctx resolvedModel c.id c.choices
      ++ usageOps opts ctx resolvedModel c.id c.usage

/-- Successful tool-result event summarizing the completion
(openaiAdapter.ts emitSuccessResult). -/
def emitSuccessResult (opts : ResolvedOpenAIOptions) (completion : ChatCompletionLike)
    (ctx : TraceContext) (model : Option String) (latencyMs : Int) : List RecOp :=
  if !opts.emitToolResults then []
  else
    [RecOp.toolResult
      { provider := opts.provider
        model := jsCoalesce completion.model model
        requestId := completion.id
        tool := opts.operationName
        output := summarizeResult (some completion)
        ok := true
        latencyMs := latencyMs
        ctx := ctx }]

/-- Failed tool-result event describing the thrown error
(openaiAdapter.ts emitFailureResult). -/
def emitFailureResult (rt : JsRuntime) (opts : ResolvedOpenAIOptions)
    (model : Option String) (ctx : TraceContext) (latencyMs : Int)
    (error : ErrValue) : List RecOp :=
  if !opts.emitToolResults then []
  else
    [RecOp.toolResult
      { provider := opts.provider
        model := model
        requestId := none
        tool := opts.operationName
        output := serializeError rt error
        ok := false
        latencyMs := latencyMs
        ctx := ctx }]

/-- Successful tool-result for auxiliary endpoints
(internal/emitters.ts emitAuxiliarySuccess). -/
def emitAuxiliarySuccess (opts : ResolvedOpenAIOptions) (tool : String)
    (model : Option String) (ctx : TraceContext) (latencyMs : Int)
    (output : Value) : List RecOp :=
  if !opts.emitToolResults then []
  else
    [RecOp.toolResult
      { provider := opts.provider
        model := model
        requestId := none
        tool := tool
        output := output
        ok := true
        latencyMs := latencyMs
        ctx := ctx }]

/-- Failed tool-result for auxiliary endpoints
(internal/emitters.ts emitAuxiliaryFailure). -/
def emitAuxiliaryFailure (rt : JsRuntime) (opts : ResolvedOpenAIOptions)
    (tool : String) (model : Option String) (ctx : TraceContext)
    (latencyMs : Int) (error : ErrValue) : List RecOp :=
  if !opts.emitToolResults then []
  else
    [RecOp.toolResult
      { provider := opts.provider
        model := model
        requestId := none
        tool := tool
        output := serializeError rt error
        ok := false
        latencyMs := latencyMs
        ctx := ctx }]

/-- Span token and context at call start: a span is opened only when span
emission is enabled, otherwise a fresh ad-hoc context is fabricated
(internal/span.ts beginSpan; openaiAdapter.ts spanToken and ctx). The
contexts the tracer and newTraceCtx would hand out are inputs. -/
def beginSpan (opts : ResolvedOpenAIOptions) (spanCtx freshCtx : TraceContext) :
    Option TraceContext × TraceContext :=
  if !opts.emitSpan then (none, freshCtx) else (some spanCtx, spanCtx)

/-- Span-close operation when a span was opened (internal/span.ts
finalizeSpan; the tracer.spanEnd calls of openaiAdapter.ts). -/
def finalizeSpanOps (spanToken : Option TraceContext) (status : String)
    (attrs : SpanAttrs) : List RecOp :=
  match spanToken with
  | some tok => [RecOp.spanEnd status attrs tok]
  | none => []

/-- Invocation of a final-result accessor: a synchronous throw or a promise
settling with an optional completion. -/
inductive AccessorCall where
  | settles : JsResult (Option ChatCompletionLike) → AccessorCall
  | throws : ErrValue → AccessorCall

/-- Stream-shaped object as the adapter inspects it (internal/types.ts
StreamLike): the optional finalChatCompletion accessor, presence of the
tee and toReadableStream helpers, and the behavior of the tee path
(whether setup throws, whether a readable is obtained, and the settlement
of the rebuilt final-completion promise). -/
structure StreamInfo where
  finalChatCompletion : Option AccessorCall
  tee : Bool
  toReadableStream : Bool
  teeThrows : Option ErrValue
  teeReadable : Bool
  teeFinal : JsResult (Option ChatCompletionLike)

/-- Value returned by the underlying create call: its stream accessors when
it is stream shaped, and its view as a completion otherwise. -/
structure SdkValue where
  stream : Option StreamInfo
  completion : ChatCompletionLike

/-- Stream detection over the accessors (internal/stream.ts isStreamLike):
a finalChatCompletion function, or both tee and toReadableStream. -/
def streamShapeLike (s : StreamInfo) : Bool :=
  s.finalChatCompletion.isSome || (s.tee && s.toReadableStream)

/-- Stream detection on an arbitrary result value. -/
def isStreamLike (v : SdkValue) : Bool :=
  match v.stream with
  | some s => streamShapeLike s
  | none => false

/-- Caller-facing stream paired with the optional final-completion promise
(internal/stream.ts resolveFinalCompletion). The direct accessor is
preferred; the tee path duplicates the stream, rebuilds the accessor and
attaches it to the caller copy; every failure falls back to the original
stream with no promise. -/
def resolveFinalCompletion (s : StreamInfo) :
    StreamInfo × Option (JsResult (Option ChatCompletionLike)) :=
  match s.finalChatCompletion with
  | some (.settles r) => (s, some r)
  | some (.throws _) => (s, none)
  | none =>
      if s.tee && s.toReadableStream then
        match s.teeThrows with
        | some _ => (s, none)
        | none =>
            if s.teeReadable then
              ({ s with finalChatCompletion := some (.settles s.teeFinal) },
               some s.teeFinal)
            else (s, none)
      else (s, none)

/-- Pending finalization of a streaming call: deferred behind the final
promise, or the immediate no-payload success path when no promise could
be built. Either way the finalization work runs detached, once. -/
inductive FinalizationSignal where
  | deferred : JsResult (Option ChatCompletionLike) → FinalizationSignal
  | immediateOk : FinalizationSignal

/-- Immediate phase of handleStreamResult (internal/stream.ts): the stream
given back to the caller together with the single finalization signal
whose settlement later drives the deferred events. No recorder operation
is issued in this phase. -/
def handleStreamResult (s : StreamInfo) : StreamInfo × FinalizationSignal :=
  match resolveFinalCompletion s with
  | (u, some r) => (u, .deferred r)
  | (u, none) => (u, .immediateOk)

/-- Deferred success pipeline of a streaming call (internal/stream.ts
finishOk): completion artifacts, an ok tool-result, and the span close
with the stream attribute. -/
def streamFinishOk (rt : JsRuntime) (opts : ResolvedOpenAIOptions)
    (completion : Option ChatCompletionLike) (ctx : TraceContext)
    (model : Option String) (spanToken : Option TraceContext)
    (latencyMs : Int) : List RecOp :=
  emitCompletionArtifacts rt opts completion ctx model
  ++ (if opts.emitToolResults then
        [RecOp.toolResult
          { provider := opts.provider
            model := jsCoalesce (completion.bind (fun c => c.model)) model
            requestId := completion.bind (fun c => c.id)
            tool := opts.operationName
            output := summarizeResult completion
            ok := true
            latencyMs := latencyMs
            ctx := ctx }]
      else [])
  ++ finalizeSpanOps spanToken "ok"
       { latencyMs := latencyMs
         model := jsCoalesce (completion.bind (fun c => c.model)) model
         stream := some true
         error := none }

/-- Deferred failure pipeline of a streaming call (internal/stream.ts
finishErr): a failed tool-result and the error span close with the
stream attribute. -/
def streamFinishErr (rt : JsRuntime) (opts : ResolvedOpenAIOptions)
    (e : ErrValue) (ctx : TraceContext) (model : Option String)
    (spanToken : Option TraceContext) (latencyMs : Int) : List RecOp :=
  (if opts.emitToolResults then
     [RecOp.toolResult
       { provider := opts.provider
         model := model
         requestId := none
         tool := opts.operationName
         output := serializeError rt e
         ok := false
         latencyMs := latencyMs
         ctx := ctx }]
   else [])
  ++ finalizeSpanOps spanToken "error"
       { latencyMs := latencyMs
         model := model
         stream := some true
         error := some (toErrorMessage rt e) }

/-- Finalization phase of a streaming call: the one-shot handler attached to
the finalization signal dispatches to the success or failure pipeline. -/
def finalizeStream (rt : JsRuntime) (opts : ResolvedOpenAIOptions)
    (ctx : TraceContext) (model : Option String)
    (spanToken : Option TraceContext) (latencyMs : Int) :
    FinalizationSignal → List RecOp
  | .deferred (.ok c) => streamFinishOk rt opts c ctx model spanToken latencyMs
  | .deferred (.thrown e) => streamFinishErr rt opts e ctx model spanToken latencyMs
  | .immediateOk => streamFinishOk rt opts none ctx model spanToken latencyMs

/-- Sequential awaited recording of operations against a recorder whose
possible rejection is injected through fail: recording stops at the first
rejected operation and reports its error. -/
def recordOps (fail : RecOp → Option ErrValue) :
    List RecOp → List RecOp × Option ErrValue
  | [] => ([], none)
  | op :: rest =>
      match fail op with
      | some e => ([], some e)
      | none =>
          let r := recordOps fail rest
          (op :: r.1, r.2)

/-- Recorder that never rejects. -/
def noFail : RecOp → Option ErrValue := fun _ => none

/-- Parameters of a chat completions create call (internal/types.ts
ChatCompletionCreateParams). -/
structure ChatParams where
  model : Option String
  stream : Option Bool
  messages : Option (List ChatMessage)

/-- Behavior of the underlying create method for one call. -/
inductive UnderlyingBehavior where
  | succeeds : SdkValue → UnderlyingBehavior
  | fails : ErrValue → UnderlyingBehavior

/-- Value the wrapped call hands back to the caller: the original result, or
the caller-facing stream with its pending finalization. -/
inductive CallReturn where
  | value : SdkValue → CallReturn
  | stream : StreamInfo → FinalizationSignal → CallReturn

/-- Observable outcome of one wrapped call: the recorder operations issued
before the returned promise settles, and its settlement. -/
structure WrappedOutcome where
  trace : List RecOp
  result : JsResult CallReturn

/-- Span token of a chat call (openaiAdapter.ts: tracer.spanStart when span
emission is enabled, else null). -/
def chatSpanToken (opts : ResolvedOpenAIOptions) (spanCtx : TraceContext) :
    Option TraceContext :=
  if opts.emitSpan then some spanCtx else none

/-- Trace context of a chat call (openaiAdapter.ts: spanToken.ctx when a
span was opened, else newTraceCtx). -/
def chatCtx (opts : ResolvedOpenAIOptions) (spanCtx freshCtx : TraceContext) :
    TraceContext :=
  match chatSpanToken opts spanCtx with
  | some t => t
  | none => freshCtx

/-- Instrumented chat.completions.create (openaiAdapter.ts wrappedCreate):
prompt events are awaited, the underlying method is invoked, and on
settlement completion artifacts, the terminal tool-result and the span
close are recorded on the success path, or the failure events on the
error path with the original error re-thrown. A stream-like result is
handed to the stream resolver and returned at once. The contexts the
tracer span and newTraceCtx would allocate, the latency the clock would
measure, and the recorder rejection behavior are inputs. -/
def wrappedCreate (rt : JsRuntime) (fail : RecOp → Option ErrValue)
    (opts : ResolvedOpenAIOptions) (params : Option ChatParams)
    (spanCtx freshCtx : TraceContext) (under : UnderlyingBehavior)
    (latencyMs : Int) : WrappedOutcome :=
  let model := params.bind (fun p => p.model)
  let spanToken := chatSpanToken opts spanCtx
  let ctx := chatCtx opts spanCtx freshCtx
  let promptOps := emitPromptMessages rt opts (params.bind (fun p => p.messages)) ctx model
  let rec1 := recordOps fail promptOps
  match rec1.2 with
  | some e => { trace := rec1.1, result := .thrown e }
  | none =>
      match under with
      | .fails e =>
          let failOps :=
            emitFailureResult rt opts model ctx latencyMs e
            ++ finalizeSpanOps spanToken "error"
                 { latencyMs := latencyMs
                   model := model
                   stream := none
                   error := some (toErrorMessage rt e) }
          let rec2 := recordOps fail failOps
          { trace := rec1.1 ++ RecOp.callUnderlying :: rec2.1
            result := .thrown (match rec2.2 with | some e2 => e2 | none => e) }
      | .succeeds v =>
          if isStreamLike v then
            match v.stream with
            | some s =>
                let hs := handleStreamResult s
                { trace := rec1.1 ++ [RecOp.callUnderlying]
                  result := .ok (.stream hs.1 hs.2) }
            | none =>
                { trace := rec1.1 ++ [RecOp.callUnderlying]
                  result := .ok (.value v) }
          else
            let c := v.completion
            let ops :=
              emitCompletionArtifacts rt opts (some c) ctx model
              ++ emitSuccessResult opts c ctx model latencyMs
              ++ finalizeSpanOps spanToken "ok"
                   { latencyMs := latencyMs
                     model := jsCoalesce c.model model
                     stream := none
                     error := none }
            let rec2 := recordOps fail ops
            match rec2.2 with
            | some e2 =>
                { trace := rec1.1 ++ RecOp.callUnderlying :: rec2.1
                  result := .thrown e2 }
            | none =>
                { trace := rec1.1 ++ RecOp.callUnderlying :: rec2.1
                  result := .ok (.value v) }

/-- Options object of an auxiliary call, only its model field matters here
(internal/types.ts extractModel reads params.model). -/
structure GenericParams where
  model : Value

/-- String model identifier of a parameter object when present
(internal/types.ts extractModel). -/
def extractModel (params : Option GenericParams) : Option String :=
  match params with
  | some p =>
      match p.model with
      | .vStr s => some s
      | _ => none
  | none => none

/-- Instrumented images.generate (wrapImagesApi wrappedImagesGenerate): a
span around the underlying call, one auxiliary tool-result with a null
summary on success or the serialized error on failure, and the original
result or error handed back. -/
def wrappedImagesGenerate (rt : JsRuntime) (opts : ResolvedOpenAIOptions)
    (params : Option GenericParams) (spanCtx freshCtx : TraceContext)
    (under : JsResult Value) (latencyMs : Int) :
    List RecOp × JsResult Value :=
  let model := extractModel params
  let st := beginSpan opts spanCtx freshCtx
  let spanToken := st.1
  let ctx := st.2
  match under with
  | .ok result =>
      (emitAuxiliarySuccess opts "openai.images.generate" model ctx latencyMs
         (summarizeResult none)
       ++ finalizeSpanOps spanToken "ok"
            { latencyMs := latencyMs, model := model, stream := none, error := none },
       .ok result)
  | .thrown e =>
      (emitAuxiliaryFailure rt opts "openai.images.generate" model ctx latencyMs e
       ++ finalizeSpanOps spanToken "error"
            { latencyMs := latencyMs
              model := model
              stream := none
              error := some (toErrorMessage rt e) },
       .thrown e)

/-- Underlying client instance: its property table and the hidden
non-enumerable wrapper marker (internal/wrap.ts), the wrapper identified
by an allocation number standing for object identity. -/
structure JsClient where
  props : String → Value
  marker : Option Nat

/-- Previously cached proxy of a client (internal/wrap.ts getExistingProxy). -/
def getExistingProxy (client : JsClient) : Option Nat :=
  client.marker

/-- Memoization of the proxy on the client instance
(internal/wrap.ts markProxy). -/
def markProxy (client : JsClient) (proxy : Nat) : JsClient :=
  { client with marker := some proxy }

/-- Instrumentation entry point (openaiAdapter.ts withOpenAI) at the level
of wrapper identity: options are resolved, an existing proxy is returned
unchanged, otherwise a new proxy identity is allocated and marked on the
client. The fresh proxy identity the allocator would produce is an
input. -/
def withOpenAI (client : JsClient) (tracer : Nat)
    (options : OpenAIAdapterOptions) (fresh : Nat) : Nat × JsClient :=
  let _resolved := resolveOptions options
  let _tracer := tracer
  match getExistingProxy client with
  | some existing => (existing, client)
  | none => (fresh, markProxy client fresh)

/-- Result of one property read on the wrapper proxy: the underlying value
handed through unchanged, or the lazily built chat interception proxy
over the underlying chat namespace. -/
inductive PropAccess where
  | plain : Value → PropAccess
  | chatWrapped : Value → PropAccess

/-- Get trap of the top-level proxy built by withOpenAI (openaiAdapter.ts):
every property other than a non-null chat namespace is returned exactly
as read on the target. -/
def proxyGet (client : JsClient) (prop : String) : PropAccess :=
  let value := client.props prop
  if prop ≠ "chat" ∨ value.isNullish then .plain value
  else .chatWrapped value

/-- Result of one property read on the namespace-dispatching wrapper. -/
inductive FullPropAccess where
  | plain : Value → FullPropAccess
  | chatWrapped : Value → FullPropAccess
  | responsesWrapped : Value → FullPropAccess
  | imagesWrapped : Value → FullPropAccess
  | audioWrapped : Value → FullPropAccess

/-- Modelled from the spec: the withOpenAI variant that dispatches the
responses, images and audio namespaces through their enable switches is
absent from src (only the chat-only adapter, the namespace wrappers
wrapResponsesApi, wrapImagesApi and wrapAudioApi, and the tests that
exercise the dispatch are present). Following the spec, the primary chat
surface is always instrumented, each auxiliary surface is instrumented
only when its enable switch is set, and every other property is returned
unmodified. -/
def proxyGetFull (opts : ResolvedOpenAIOptions) (client : JsClient)
    (prop : String) : FullPropAccess :=
  let value := client.props prop
  if value.isNullish then .plain value
  else if prop = "chat" then .chatWrapped value
  else if prop = "responses" ∧ opts.enableResponsesApi then .responsesWrapped value
  else if prop = "images" ∧ opts.enableImagesApi then .imagesWrapped value
  else if prop = "audio" ∧ opts.enableAudioApi then .audioWrapped value
  else .plain value

/-! Helper lemmas about recording and event kinds. -/

lemma recordOps_noFail (ops : List RecOp) : recordOps noFail ops = (ops, none) := by
  induction ops with
  | nil => rfl
  | cons op rest ih => simp [recordOps, noFail, ih]

lemma recordOps_sub (fail : RecOp → Option ErrValue) (ops : List RecOp) :
    ∀ op ∈ (recordOps fail ops).1, op ∈ ops := by
  induction ops with
  | nil => intro op h; simp [recordOps] at h
  | cons hd rest ih =>
      intro op h
      by_cases hf : (fail hd).isSome
      · rcases Option.isSome_iff_exists.mp hf with ⟨e, he⟩
        simp [recordOps, he] at h
      · rw [Option.not_isSome_iff_eq_none] at hf
        simp only [recordOps, hf] at h
        rcases List.mem_cons.mp h with h1 | h2
        · simp [h1]
        · exact List.mem_cons_of_mem _ (ih op h2)

lemma filterKind_append (k : OpKind) (a b : List RecOp) :
    filterKind k (a ++ b) = filterKind k a ++ filterKind k b := by
  simp [filterKind]

lemma countKind_append (k : OpKind) (a b : List RecOp) :
    countKind k (a ++ b) = countKind k a + countKind k b := by
  simp [countKind, filterKind_append]

lemma filterKind_eq_nil {k : OpKind} {t : List RecOp}
    (h : ∀ op ∈ t, op.kind ≠ k) : filterKind k t = [] := by
  simp only [filterKind, List.filter_eq_nil_iff]
  intro op hop
  simp [h op hop]

lemma filterKind_eq_self {k : OpKind} {t : List RecOp}
    (h : ∀ op ∈ t, op.kind = k) : filterKind k t = t := by
  induction t with
  | nil => rfl
  | cons op rest ih =>
      have h1 := h op (by simp)
      have h2 := ih (fun x hx => h x (List.mem_cons_of_mem _ hx))
      simp only [filterKind] at h2 ⊢
      simp [List.filter_cons, h1, h2]

lemma countKind_eq_zero {k : OpKind} {t : List RecOp}
    (h : ∀ op ∈ t, op.kind ≠ k) : countKind k t = 0 := by
  simp [countKind, filterKind_eq_nil h]

lemma countKind_eq_length {k : OpKind} {t : List RecOp}
    (h : ∀ op ∈ t, op.kind = k) : countKind k t = t.length := by
  simp [countKind, filterKind_eq_self h]

lemma length_filterMap_of_isSome {α β : Type} (f : α → Option β) (l : List α)
    (h : ∀ a ∈ l, (f a).isSome) : (l.filterMap f).length = l.length := by
  induction l with
  | nil => rfl
  | cons a t ih =>
      rcases Option.isSome_iff_exists.mp (h a (by simp)) with ⟨b, hb⟩
      simp only [List.filterMap_cons, hb, List.length_cons]
      exact congrArg Nat.succ (ih (fun x hx => h x (List.mem_cons_of_mem _ hx)))

lemma emitPromptMessages_disabled (rt : JsRuntime) {opts : ResolvedOpenAIOptions}
    (messages : Option (List ChatMessage)) (ctx : TraceContext)
    (model : Option String) (h : opts.emitPrompts = false) :
    emitPromptMessages rt opts messages ctx model = [] := by
  unfold emitPromptMessages
  rw [h]
  rfl

lemma emitPromptMessages_none (rt : JsRuntime) (opts : ResolvedOpenAIOptions)
    (ctx : TraceContext) (model : Option String) :
    emitPromptMessages rt opts none ctx model = [] := by
  unfold emitPromptMessages
  split <;> rfl

lemma emitPromptMessages_enabled (rt : JsRuntime) {opts : ResolvedOpenAIOptions}
    (msgs : List ChatMessage) (ctx : TraceContext) (model : Option String)
    (h : opts.emitPrompts = true) :
    emitPromptMessages rt opts (some msgs) ctx model
      = msgs.map (fun msg =>
          RecOp.message (buildMessagePayload opts.provider model
            (toMessageRole msg.role "user") (normalizeContent rt msg.content)
            ctx none msg.name)) := by
  unfold emitPromptMessages
  rw [h]
  rfl

lemma emitChoice_of_message {choice : ChatCompletionChoice} {message : ChatMessage}
    (rt : JsRuntime) (opts : ResolvedOpenAIOptions) (ctx : TraceContext)
    (resolvedModel : Option String) (requestId : Option String)
    (h : choice.message = some message) :
    emitChoice rt opts ctx resolvedModel requestId choice
      = (if !opts.emitToolCalls then
           choiceMessageOps rt opts ctx resolvedModel requestId message
         else
           choiceMessageOps rt opts ctx resolvedModel requestId message
           ++ toolCallOps rt opts ctx resolvedModel requestId choice.finish_reason
                message.tool_calls
           ++ legacyToolCallOps rt opts ctx resolvedModel requestId
                choice.finish_reason message.function_call) := by
  unfold emitChoice
  rw [h]

lemma emitChoice_no_message {choice : ChatCompletionChoice} (rt : JsRuntime)
    (opts : ResolvedOpenAIOptions) (ctx : TraceContext)
    (resolvedModel : Option String) (requestId : Option String)
    (h : choice.message = none) :
    emitChoice rt opts ctx resolvedModel requestId choice = [] := by
  unfold emitChoice
  rw [h]

lemma legacyToolCallOps_of_name {fc : LegacyFunctionCall} {nm : String}
    (rt : JsRuntime) (opts : ResolvedOpenAIOptions) (ctx : TraceContext)
    (resolvedModel : Option String) (requestId : Option String)
    (finishReason : Option String) (h : truthyStr fc.name = some nm) :
    legacyToolCallOps rt opts ctx resolvedModel requestId finishReason (some fc)
      = [RecOp.toolCall
          { provider := opts.provider
            model := resolvedModel
            tool := nm
            input := safeParseJSON rt (strOrUndef fc.arguments)
            requestId := requestId
            extId := none
            extFinishReason := finishReason
            ctx := ctx }] := by
  have e0 : legacyToolCallOps rt opts ctx resolvedModel requestId finishReason (some fc)
      = legacyNameOps rt opts ctx resolvedModel requestId finishReason
          (truthyStr fc.name) fc.arguments := rfl
  rw [e0, h]
  rfl

lemma legacyToolCallOps_no_name {fc : LegacyFunctionCall} (rt : JsRuntime)
    (opts : ResolvedOpenAIOptions) (ctx : TraceContext)
    (resolvedModel : Option String) (requestId : Option String)
    (finishReason : Option String) (h : truthyStr fc.name = none) :
    legacyToolCallOps rt opts ctx resolvedModel requestId finishReason (some fc)
      = [] := by
  have e0 : legacyToolCallOps rt opts ctx resolvedModel requestId finishReason (some fc)
      = legacyNameOps rt opts ctx resolvedModel requestId finishReason
          (truthyStr fc.name) fc.arguments := rfl
  rw [e0, h]
  rfl

lemma emitPromptMessages_mem (rt : JsRuntime) (opts : ResolvedOpenAIOptions)
    (messages : Option (List ChatMessage)) (ctx : TraceContext)
    (model : Option String) :
    ∀ op ∈ emitPromptMessages rt opts messages ctx model,
      op.kind = .message ∧ op.ctxOf = some ctx := by
  intro op hop
  by_cases hp : opts.emitPrompts = true
  · match messages with
    | none => rw [emitPromptMessages_none] at hop; simp at hop
    | some msgs =>
        rw [emitPromptMessages_enabled rt msgs ctx model hp] at hop
        simp only [List.mem_map] at hop
        rcases hop with ⟨msg, _, rfl⟩
        exact ⟨rfl, rfl⟩
  · rw [emitPromptMessages_disabled rt messages ctx model
      (Bool.not_eq_true _ ▸ hp)] at hop
    simp at hop

lemma choiceMessageOps_mem (rt : JsRuntime) (opts : ResolvedOpenAIOptions)
    (ctx : TraceContext) (resolvedModel : Option String)
    (requestId : Option String) (message : ChatMessage) :
    ∀ op ∈ choiceMessageOps rt opts ctx resolvedModel requestId message,
      op.kind = .message ∧ op.ctxOf = some ctx := by
  intro op hop
  unfold choiceMessageOps at hop
  split at hop
  · simp only at hop
    split at hop
    · simp only [List.mem_singleton] at hop
      subst hop
      exact ⟨rfl, rfl⟩
    · simp at hop
  · simp at hop

lemma toolCallOps_mem (rt : JsRuntime) (opts : ResolvedOpenAIOptions)
    (ctx : TraceContext) (resolvedModel : Option String)
    (requestId : Option String) (finishReason : Option String)
    (toolCalls : Option (List ChatToolCall)) :
    ∀ op ∈ toolCallOps rt opts ctx resolvedModel requestId finishReason toolCalls,
      op.kind = .toolCall ∧ op.ctxOf = some ctx := by
  intro op hop
  match toolCalls with
  | none => simp [toolCallOps] at hop
  | some calls =>
      simp only [toolCallOps, List.mem_filterMap] at hop
      rcases hop with ⟨call, _, hcall⟩
      rcases Option.map_eq_some'.mp hcall with ⟨p, _, rfl⟩
      exact ⟨rfl, rfl⟩

lemma legacyToolCallOps_mem (rt : JsRuntime) (opts : ResolvedOpenAIOptions)
    (ctx : TraceContext) (resolvedModel : Option String)
    (requestId : Option String) (finishReason : Option String)
    (fcall : Option LegacyFunctionCall) :
    ∀ op ∈ legacyToolCallOps rt opts ctx resolvedModel requestId finishReason fcall,
      op.kind = .toolCall ∧ op.ctxOf = some ctx := by
  intro op hop
  match fcall with
  | none => simp [legacyToolCallOps] at hop
  | some fc =>
      rcases htr : truthyStr fc.name with _ | nm
      · rw [legacyToolCallOps_no_name rt opts ctx resolvedModel requestId
          finishReason htr] at hop
        simp at hop
      · rw [legacyToolCallOps_of_name rt opts ctx resolvedModel requestId
          finishReason htr] at hop
        simp only [List.mem_singleton] at hop
        subst hop
        exact ⟨rfl, rfl⟩

lemma emitChoice_mem (rt : JsRuntime) (opts : ResolvedOpenAIOptions)
    (ctx : TraceContext) (resolvedModel : Option String)
    (requestId : Option String) (choice : ChatCompletionChoice) :
    ∀ op ∈ emitChoice rt opts ctx resolvedModel requestId choice,
      (op.kind = .message ∨ op.kind = .toolCall) ∧ op.ctxOf = some ctx := by
  intro op hop
  rcases hmsg : choice.message with _ | message
  · rw [emitChoice_no_message rt opts ctx resolvedModel requestId hmsg] at hop
    simp at hop
  · rw [emitChoice_of_message rt opts ctx resolvedModel requestId hmsg] at hop
    split at hop
    · rcases choiceMessageOps_mem rt opts ctx resolvedModel requestId message op hop
        with ⟨hk, hc⟩
      exact ⟨Or.inl hk, hc⟩
    · rcases List.mem_append.mp hop with h1 | h2
      · rcases List.mem_append.mp h1 with ha | hb
        · rcases choiceMessageOps_mem rt opts ctx resolvedModel requestId message op ha
            with ⟨hk, hc⟩
          exact ⟨Or.inl hk, hc⟩
        · rcases toolCallOps_mem rt opts ctx resolvedModel requestId
            choice.finish_reason message.tool_calls op hb with ⟨hk, hc⟩
          exact ⟨Or.inr hk, hc⟩
      · rcases legacyToolCallOps_mem rt opts ctx resolvedModel requestId
          choice.finish_reason message.function_call op h2 with ⟨hk, hc⟩
        exact ⟨Or.inr hk, hc⟩

lemma choicesOps_mem (rt : JsRuntime) (opts : ResolvedOpenAIOptions)
    (ctx : TraceContext) (resolvedModel : Option String)
    (requestId : Option String) (choices : Option (List ChatCompletionChoice)) :
    ∀ op ∈ choicesOps rt opts ctx resolvedModel requestId choices,
      (op.kind = .message ∨ op.kind = .toolCall) ∧ op.ctxOf = some ctx := by
  intro op hop
  unfold choicesOps at hop
  split at hop
  · match choices with
    | none => simp at hop
    | some chs =>
        simp only [List.mem_flatten, List.mem_map] at hop
        rcases hop with ⟨ops, ⟨ch, _, rfl⟩, hopin⟩
        exact emitChoice_mem rt opts ctx resolvedModel requestId ch op hopin
  · simp at hop

lemma usageOps_none (opts : ResolvedOpenAIOptions) (ctx : TraceContext)
    (resolvedModel : Option String) (requestId : Option String) :
    usageOps opts ctx resolvedModel requestId none = [] := rfl

lemma usageOps_some (opts : ResolvedOpenAIOptions) (ctx : TraceContext)
    (resolvedModel : Option String) (requestId : Option String) (u : ChatUsage) :
    usageOps opts ctx resolvedModel requestId (some u)
      = (if opts.emitUsage then
          [RecOp.usage
            { provider := opts.provider
              model := resolvedModel
              requestId := requestId
              inputTokens := u.prompt_tokens
              outputTokens := u.completion_tokens
              extTotalTokens := u.total_tokens
              ctx := ctx }]
         else []) := rfl

lemma usageOps_mem (opts : ResolvedOpenAIOptions) (ctx : TraceContext)
    (resolvedModel : Option String) (requestId : Option String)
    (usage : Option ChatUsage) :
    ∀ op ∈ usageOps opts ctx resolvedModel requestId usage,
      op.kind = .usage ∧ op.ctxOf = some ctx := by
  intro op hop
  match usage with
  | none => rw [usageOps_none] at hop; simp at hop
  | some u =>
      rw [usageOps_some] at hop
      split at hop
      · simp only [List.mem_singleton] at hop
        subst hop
        exact ⟨rfl, rfl⟩
      · simp at hop

lemma emitCompletionArtifacts_mem (rt : JsRuntime) (opts : ResolvedOpenAIOptions)
    (completion : Option ChatCompletionLike) (ctx : TraceContext)
    (model : Option String) :
    ∀ op ∈ emitCompletionArtifacts rt opts completion ctx model,
      (op.kind = .message ∨ op.kind = .toolCall ∨ op.kind = .usage)
        ∧ op.ctxOf = some ctx := by
  intro op hop
  match completion with
  | none => simp [emitCompletionArtifacts] at hop
  | some c =>
      unfold emitCompletionArtifacts at hop
      simp only at hop
      rcases List.mem_append.mp hop with h1 | h2
      · rcases choicesOps_mem rt opts ctx (jsCoalesce c.model model) c.id c.choices op h1
          with ⟨hk, hc⟩
        exact ⟨hk.imp id Or.inl, hc⟩
      · rcases usageOps_mem opts ctx (jsCoalesce c.model model) c.id c.usage op h2
          with ⟨hk, hc⟩
        exact ⟨Or.inr (Or.inr hk), hc⟩

lemma emitSuccessResult_mem (opts : ResolvedOpenAIOptions)
    (completion : ChatCompletionLike) (ctx : TraceContext)
    (model : Option String) (latencyMs : Int) :
    ∀ op ∈ emitSuccessResult opts completion ctx model latencyMs,
      op.kind = .toolResult ∧ op.ctxOf = some ctx := by
  intro op hop
  unfold emitSuccessResult at hop
  split at hop
  · simp at hop
  · simp only [List.mem_singleton] at hop
    subst hop
    exact ⟨rfl, rfl⟩

lemma emitFailureResult_mem (rt : JsRuntime) (opts : ResolvedOpenAIOptions)
    (model : Option String) (ctx : TraceContext) (latencyMs : Int)
    (error : ErrValue) :
    ∀ op ∈ emitFailureResult rt opts model ctx latencyMs error,
      op.kind = .toolResult ∧ op.ctxOf = some ctx := by
  intro op hop
  unfold emitFailureResult at hop
  split at hop
  · simp at hop
  · simp only [List.mem_singleton] at hop
    subst hop
    exact ⟨rfl, rfl⟩

lemma finalizeSpanOps_mem (spanToken : Option TraceContext) (status : String)
    (attrs : SpanAttrs) :
    ∀ op ∈ finalizeSpanOps spanToken status attrs,
      op.kind = .spanEnd ∧ ∃ tok, spanToken = some tok ∧ op.ctxOf = some tok := by
  intro op hop
  match spanToken with
  | none => simp [finalizeSpanOps] at hop
  | some tok =>
      simp only [finalizeSpanOps, List.mem_singleton] at hop
      subst hop
      exact ⟨rfl, tok, rfl, rfl⟩

/-! Equation lemmas for the configured emitters. -/

lemma emitCompletionArtifacts_some (rt : JsRuntime) (opts : ResolvedOpenAIOptions)
    (c : ChatCompletionLike) (ctx : TraceContext) (model : Option String) :
    emitCompletionArtifacts rt opts (some c) ctx model
      = choicesOps rt opts ctx (jsCoalesce c.model model) c.id c.choices
        ++ usageOps opts ctx (jsCoalesce c.model model) c.id c.usage := rfl

lemma choiceMessageOps_emit {opts : ResolvedOpenAIOptions} {message : ChatMessage}
    (rt : JsRuntime) (ctx : TraceContext) (resolvedModel : Option String)
    (requestId : Option String) (h1 : opts.emitResponses = true)
    (h2 : (normalizeContent rt message.content).content ≠ "") :
    choiceMessageOps rt opts ctx resolvedModel requestId message
      = [RecOp.message (buildMessagePayload opts.provider resolvedModel
          (toMessageRole message.role "assistant")
          (normalizeContent rt message.content) ctx requestId none)] := by
  unfold choiceMessageOps
  rw [h1]
  simp [h2]

lemma choicesOps_enabled {opts : ResolvedOpenAIOptions} (rt : JsRuntime)
    (ctx : TraceContext) (resolvedModel : Option String)
    (requestId : Option String) (chs : List ChatCompletionChoice)
    (h : opts.emitResponses = true) :
    choicesOps rt opts ctx resolvedModel requestId (some chs)
      = (chs.map (emitChoice rt opts ctx resolvedModel requestId)).flatten := by
  unfold choicesOps
  rw [h]
  rfl

lemma toolCallOps_some (rt : JsRuntime) (opts : ResolvedOpenAIOptions)
    (ctx : TraceContext) (resolvedModel : Option String)
    (requestId : Option String) (finishReason : Option String)
    (calls : List ChatToolCall) :
    toolCallOps rt opts ctx resolvedModel requestId finishReason (some calls)
      = calls.filterMap (fun call =>
          (activeToolCall call).map (fun p =>
            RecOp.toolCall
              { provider := opts.provider
                model := resolvedModel
                tool := p.1
                input := safeParseJSON rt (strOrUndef p.2)
                requestId := requestId
                extId := call.id
                extFinishReason := finishReason
                ctx := ctx })) := rfl

lemma legacyToolCallOps_nil (rt : JsRuntime) (opts : ResolvedOpenAIOptions)
    (ctx : TraceContext) (resolvedModel : Option String)
    (requestId : Option String) (finishReason : Option String) :
    legacyToolCallOps rt opts ctx resolvedModel requestId finishReason none = [] := rfl

lemma emitSuccessResult_enabled {opts : ResolvedOpenAIOptions}
    (completion : ChatCompletionLike) (ctx : TraceContext)
    (model : Option String) (latencyMs : Int) (h : opts.emitToolResults = true) :
    emitSuccessResult opts completion ctx model latencyMs
      = [RecOp.toolResult
          { provider := opts.provider
            model := jsCoalesce completion.model model
            requestId := completion.id
            tool := opts.operationName
            output := summarizeResult (some completion)
            ok := true
            latencyMs := latencyMs
            ctx := ctx }] := by
  unfold emitSuccessResult
  rw [h]
  rfl

lemma emitFailureResult_enabled {opts : ResolvedOpenAIOptions} (rt : JsRuntime)
    (model : Option String) (ctx : TraceContext) (latencyMs : Int)
    (error : ErrValue) (h : opts.emitToolResults = true) :
    emitFailureResult rt opts model ctx latencyMs error
      = [RecOp.toolResult
          { provider := opts.provider
            model := model
            requestId := none
            tool := opts.operationName
            output := serializeError rt error
            ok := false
            latencyMs := latencyMs
            ctx := ctx }] := by
  unfold emitFailureResult
  rw [h]
  rfl

/-! Trace decomposition of the wrapped chat call. -/

lemma wrappedCreate_success (rt : JsRuntime) (opts : ResolvedOpenAIOptions)
    (params : Option ChatParams) (spanCtx freshCtx : TraceContext)
    (v : SdkValue) (latencyMs : Int) (hns : isStreamLike v = false) :
    wrappedCreate rt noFail opts params spanCtx freshCtx (.succeeds v) latencyMs
      = { trace :=
            emitPromptMessages rt opts (params.bind (fun p => p.messages))
              (chatCtx opts spanCtx freshCtx) (params.bind (fun p => p.model))
            ++ RecOp.callUnderlying
            :: (emitCompletionArtifacts rt opts (some v.completion)
                  (chatCtx opts spanCtx freshCtx) (params.bind (fun p => p.model))
                ++ emitSuccessResult opts v.completion (chatCtx opts spanCtx freshCtx)
                    (params.bind (fun p => p.model)) latencyMs
                ++ finalizeSpanOps (chatSpanToken opts spanCtx) "ok"
                    { latencyMs := latencyMs
                      model := jsCoalesce v.completion.model
                                 (params.bind (fun p => p.model))
                      stream := none
                      error := none })
          result := .ok (.value v) } := by
  unfold wrappedCreate
  simp [recordOps_noFail, hns]

lemma wrappedCreate_failure (rt : JsRuntime) (opts : ResolvedOpenAIOptions)
    (params : Option ChatParams) (spanCtx freshCtx : TraceContext)
    (e : ErrValue) (latencyMs : Int) :
    wrappedCreate rt noFail opts params spanCtx freshCtx (.fails e) latencyMs
      = { trace :=
            emitPromptMessages rt opts (params.bind (fun p => p.messages))
              (chatCtx opts spanCtx freshCtx) (params.bind (fun p => p.model))
            ++ RecOp.callUnderlying
            :: (emitFailureResult rt opts (params.bind (fun p => p.model))
                  (chatCtx opts spanCtx freshCtx) latencyMs e
                ++ finalizeSpanOps (chatSpanToken opts spanCtx) "error"
                    { latencyMs := latencyMs
                      model := params.bind (fun p => p.model)
                      stream := none
                      error := some (toErrorMessage rt e) })
          result := .thrown e } := by
  unfold wrappedCreate
  simp [recordOps_noFail]

lemma wrappedCreate_stream (rt : JsRuntime) (opts : ResolvedOpenAIOptions)
    (params : Option ChatParams) (spanCtx freshCtx : TraceContext)
    (s : StreamInfo) (compView : ChatCompletionLike) (latencyMs : Int)
    (hs : streamShapeLike s = true) :
    wrappedCreate rt noFail opts params spanCtx freshCtx
        (.succeeds { stream := some s, completion := compView }) latencyMs
      = { trace :=
            emitPromptMessages rt opts (params.bind (fun p => p.messages))
              (chatCtx opts spanCtx freshCtx) (params.bind (fun p => p.model))
            ++ [RecOp.callUnderlying]
          result := .ok (.stream (handleStreamResult s).1 (handleStreamResult s).2) } := by
  unfold wrappedCreate
  simp [recordOps_noFail, isStreamLike, hs]

/-! Filter computations over emitter segments. -/

lemma filterKind_cons (k : OpKind) (op : RecOp) (t : List RecOp) :
    filterKind k (op :: t)
      = if op.kind = k then op :: filterKind k t else filterKind k t := by
  simp only [filterKind, List.filter_cons]
  split <;> simp_all

lemma filterKind_marker_cons (k : OpKind) (hk : k ≠ .marker) (t : List RecOp) :
    filterKind k (RecOp.callUnderlying :: t) = filterKind k t := by
  rw [filterKind_cons]
  rw [if_neg]
  intro h
  exact hk (h ▸ rfl)

lemma filterKind_singleton (k : OpKind) (op : RecOp) :
    filterKind k [op] = if op.kind = k then [op] else [] := by
  simp only [filterKind, List.filter_cons]
  split <;> simp_all

lemma filterKind_prompts_ne (rt : JsRuntime) (opts : ResolvedOpenAIOptions)
    (messages : Option (List ChatMessage)) (ctx : TraceContext)
    (model : Option String) {k : OpKind} (hk : k ≠ .message) :
    filterKind k (emitPromptMessages rt opts messages ctx model) = [] :=
  filterKind_eq_nil (fun op hop =>
    ne_of_eq_of_ne (emitPromptMessages_mem rt opts messages ctx model op hop).1 hk.symm)

lemma filterKind_artifacts_ne (rt : JsRuntime) (opts : ResolvedOpenAIOptions)
    (completion : Option ChatCompletionLike) (ctx : TraceContext)
    (model : Option String) {k : OpKind} (hk1 : k ≠ .message)
    (hk2 : k ≠ .toolCall) (hk3 : k ≠ .usage) :
    filterKind k (emitCompletionArtifacts rt opts completion ctx model) = [] :=
  filterKind_eq_nil (fun op hop => by
    rcases (emitCompletionArtifacts_mem rt opts completion ctx model op hop).1
      with h | h | h
    · exact ne_of_eq_of_ne h hk1.symm
    · exact ne_of_eq_of_ne h hk2.symm
    · exact ne_of_eq_of_ne h hk3.symm)

lemma filterKind_spans_ne (spanToken : Option TraceContext) (status : String)
    (attrs : SpanAttrs) {k : OpKind} (hk : k ≠ .spanEnd) :
    filterKind k (finalizeSpanOps spanToken status attrs) = [] :=
  filterKind_eq_nil (fun op hop =>
    ne_of_eq_of_ne (finalizeSpanOps_mem spanToken status attrs op hop).1 hk.symm)

lemma finalizeSpanOps_some (tok : TraceContext) (status : String)
    (attrs : SpanAttrs) :
    finalizeSpanOps (some tok) status attrs = [RecOp.spanEnd status attrs tok] := rfl

lemma chatSpanToken_enabled {opts : ResolvedOpenAIOptions}
    (spanCtx : TraceContext) (h : opts.emitSpan = true) :
    chatSpanToken opts spanCtx = some spanCtx := by
  unfold chatSpanToken
  rw [h]
  rfl

lemma chatCtx_enabled {opts : ResolvedOpenAIOptions}
    (spanCtx freshCtx : TraceContext) (h : opts.emitSpan = true) :
    chatCtx opts spanCtx freshCtx = spanCtx := by
  unfold chatCtx
  rw [chatSpanToken_enabled spanCtx h]

/-! Concrete inputs used by witnesses. -/

def rt0 : JsRuntime :=
  { jsonParse := fun _ => none
    jsonStringify := fun _ => some "[]"
    toStringCoerce := fun _ => "" }

def ctxA : TraceContext := { traceId := 1, spanId := 2 }

def ctxB : TraceContext := { traceId := 3, spanId := 4 }

def clientW : JsClient := { props := fun _ => Value.vNum 7, marker := none }

/-! Claim theorems. -/

/-- C1: wrapping is idempotent per client instance. After any first call of
withOpenAI, a second call on the resulting client state — with any other
tracer, any other options, and any fresh proxy identity the allocator
might offer — returns exactly the wrapper and client state of the first
call: the same wrapper object is handed back and no new interception
chain is built. -/
theorem c1_idempotent_wrap (c : JsClient) (r r2 : Nat)
    (o1 o2 : OpenAIAdapterOptions) (f1 f2 : Nat) :
    withOpenAI (withOpenAI c r o1 f1).2 r2 o2 f2 = withOpenAI c r o1 f1 := by
  cases hm : c.marker <;>
    simp [withOpenAI, getExistingProxy, markProxy, hm]

/-- C2: the wrapper delegates every property access other than the
instrumented chat namespace unchanged: reading any p other than chat on
the proxy yields exactly the value read on the underlying client. -/
theorem c2_passthrough (c : JsClient) (p : String) (h : p ≠ "chat") :
    proxyGet c p = .plain (c.props p) := by
  unfold proxyGet
  rw [if_pos]
  exact Or.inl h

/-- C2 witness: a concrete non-chat property passes through unchanged. -/
theorem c2_passthrough_witness :
    proxyGet clientW "models" = PropAccess.plain (clientW.props "models") :=
  c2_passthrough clientW "models" (by decide)

/-- C9 counterexample: the claim states that every non-string input is
returned unchanged, but safeParseJSON sends undefined through the
JavaScript value ?? null coalescing and returns null instead. -/
theorem c9_counterexample :
    safeParseJSON rt0 Value.vUndefined ≠ Value.vUndefined := by
  intro h
  exact Value.noConfusion h

/-- C9 amended: for a string input, safeParseJSON returns the structured
parse, or the original string unchanged when parsing fails; null and
undefined are both returned as null (value ?? null); every other
non-string input is returned unchanged; the function is total and never
throws. -/
theorem c9_amended_safeParseJSON (rt : JsRuntime) (v : Value) :
    (∀ s, v = Value.vStr s →
        safeParseJSON rt v
          = (match rt.jsonParse s with
             | some parsed => parsed
             | none => Value.vStr s))
    ∧ (safeParseJSON rt Value.vNull = Value.vNull
        ∧ safeParseJSON rt Value.vUndefined = Value.vNull)
    ∧ ((∀ s, v ≠ Value.vStr s) → v ≠ Value.vUndefined → safeParseJSON rt v = v) := by
  refine ⟨?_, ⟨rfl, rfl⟩, ?_⟩
  · intro str hv
    subst hv
    rfl
  · intro hs hu
    match v with
    | .vNull => rfl
    | .vUndefined => exact absurd rfl hu
    | .vStr str => exact absurd rfl (hs str)
    | .vBool b => rfl
    | .vNum n => rfl
    | .vArr xs => rfl
    | .vObj fs => rfl

/-- C9 witness: a boolean passes through unchanged, and a string that fails
to parse is returned unchanged. -/
theorem c9_amended_witness :
    safeParseJSON rt0 (Value.vBool true) = Value.vBool true
      ∧ safeParseJSON rt0 (Value.vStr "not json") = Value.vStr "not json" := by
  constructor
  · exact (c9_amended_safeParseJSON rt0 (Value.vBool true)).2.2
      (fun str h => Value.noConfusion h) (fun h => Value.noConfusion h)
  · have h := (c9_amended_safeParseJSON rt0 (Value.vStr "not json")).1 "not json" rfl
    simpa [rt0] using h

/-- C3: when the underlying call throws and tool-result emission is enabled,
exactly one tool-result operation is recorded, carrying ok false and the
serialized error whose message field embeds the error message; when spans
are enabled exactly one span close with status error and the error
message in its attributes is recorded; and the promise rejects with the
identical error value, never swallowed or wrapped. -/
theorem c3_error_events (rt : JsRuntime) (opts : ResolvedOpenAIOptions)
    (params : Option ChatParams) (spanCtx freshCtx : TraceContext)
    (e : ErrValue) (lat : Int) (hT : opts.emitToolResults = true) :
    (wrappedCreate rt noFail opts params spanCtx freshCtx (.fails e) lat).result
        = .thrown e
    ∧ filterKind .toolResult
        (wrappedCreate rt noFail opts params spanCtx freshCtx (.fails e) lat).trace
        = [RecOp.toolResult
            { provider := opts.provider
              model := params.bind (fun p => p.model)
              requestId := none
              tool := opts.operationName
              output := serializeError rt e
              ok := false
              latencyMs := lat
              ctx := chatCtx opts spanCtx freshCtx }]
    ∧ (opts.emitSpan = true →
        filterKind .spanEnd
          (wrappedCreate rt noFail opts params spanCtx freshCtx (.fails e) lat).trace
          = [RecOp.spanEnd "error"
              { latencyMs := lat
                model := params.bind (fun p => p.model)
                stream := none
                error := some (toErrorMessage rt e) } spanCtx])
    ∧ messageOfError (serializeError rt e) = some (.vStr (toErrorMessage rt e)) := by
  rw [wrappedCreate_failure]
  refine ⟨rfl, ?_, ?_, ?_⟩
  · rw [filterKind_append,
      filterKind_prompts_ne rt opts _ _ _ (by decide),
      filterKind_marker_cons _ (by decide) _,
      filterKind_append,
      emitFailureResult_enabled rt _ _ lat e hT,
      filterKind_spans_ne _ _ _ (by decide)]
    rfl
  · intro hSpan
    rw [filterKind_append,
      filterKind_prompts_ne rt opts _ _ _ (by decide),
      filterKind_marker_cons _ (by decide) _,
      filterKind_append,
      emitFailureResult_enabled rt _ _ lat e hT,
      chatSpanToken_enabled spanCtx hSpan,
      finalizeSpanOps_some]
    rfl
  · match e with
    | .err name message stack => rfl
    | .str str => rfl
    | .other v => rfl

/-- C3 witness: a concrete rejected call under default options. -/
theorem c3_error_events_witness :
    (wrappedCreate rt0 noFail (resolveOptions {}) none ctxA ctxB
        (.fails (.err "Error" "rate limit exceeded" "")) 24).result
      = .thrown (.err "Error" "rate limit exceeded" "")
    ∧ messageOfError (serializeError rt0 (.err "Error" "rate limit exceeded" ""))
      = some (.vStr "rate limit exceeded") := by
  have h := c3_error_events rt0 (resolveOptions {}) none ctxA ctxB
    (.err "Error" "rate limit exceeded" "") 24 rfl
  exact ⟨h.1, h.2.2.2⟩

/-! Per-segment count lemmas used by the event-count claims. -/

lemma filterKind_prompts_message (rt : JsRuntime) (opts : ResolvedOpenAIOptions)
    (messages : Option (List ChatMessage)) (ctx : TraceContext)
    (model : Option String) :
    filterKind .message (emitPromptMessages rt opts messages ctx model)
      = emitPromptMessages rt opts messages ctx model :=
  filterKind_eq_self (fun op hop =>
    (emitPromptMessages_mem rt opts messages ctx model op hop).1)

lemma length_prompts_enabled (rt : JsRuntime) {opts : ResolvedOpenAIOptions}
    (msgs : List ChatMessage) (ctx : TraceContext) (model : Option String)
    (h : opts.emitPrompts = true) :
    (emitPromptMessages rt opts (some msgs) ctx model).length = msgs.length := by
  rw [emitPromptMessages_enabled rt msgs ctx model h]
  simp

lemma filterKind_toolCallOps_ne (rt : JsRuntime) (opts : ResolvedOpenAIOptions)
    (ctx : TraceContext) (resolvedModel : Option String)
    (requestId : Option String) (finishReason : Option String)
    (toolCalls : Option (List ChatToolCall)) {k : OpKind} (hk : k ≠ .toolCall) :
    filterKind k (toolCallOps rt opts ctx resolvedModel requestId finishReason
      toolCalls) = [] :=
  filterKind_eq_nil (fun op hop =>
    ne_of_eq_of_ne
      (toolCallOps_mem rt opts ctx resolvedModel requestId finishReason toolCalls op hop).1
      hk.symm)

lemma length_toolCallOps (rt : JsRuntime) (opts : ResolvedOpenAIOptions)
    (ctx : TraceContext) (resolvedModel : Option String)
    (requestId : Option String) (finishReason : Option String)
    (calls : List ChatToolCall)
    (hnamed : ∀ call ∈ calls, (activeToolCall call).isSome) :
    (toolCallOps rt opts ctx resolvedModel requestId finishReason (some calls)).length
      = calls.length := by
  rw [toolCallOps_some, length_filterMap_of_isSome]
  intro a ha
  rw [Option.isSome_map']
  exact hnamed a ha

lemma countKind_toolCallOps (rt : JsRuntime) (opts : ResolvedOpenAIOptions)
    (ctx : TraceContext) (resolvedModel : Option String)
    (requestId : Option String) (finishReason : Option String)
    (calls : List ChatToolCall)
    (hnamed : ∀ call ∈ calls, (activeToolCall call).isSome) :
    countKind .toolCall
      (toolCallOps rt opts ctx resolvedModel requestId finishReason (some calls))
      = calls.length := by
  rw [countKind_eq_length (fun op hop =>
    (toolCallOps_mem rt opts ctx resolvedModel requestId finishReason (some calls)
      op hop).1)]
  rw [toolCallOps_some]
  rw [length_filterMap_of_isSome]
  intro a ha
  rw [Option.isSome_map']
  exact hnamed a ha

/-- C4: a successful non-streaming chat call under default options, whose
input has the given messages and whose completion has one choice with
non-empty normalized assistant content, named tool calls only, no legacy
function call, and a usage block, records exactly the input-message
events followed by one assistant message event among message events, one
tool-call event per tool call, exactly one usage event, exactly one
tool-result event with ok true, exactly one span close with status ok,
and every recorded event carries the span trace context. -/
theorem c4_full_event_set (rt : JsRuntime) (msgs : List ChatMessage)
    (pm : Option String) (streamFlag : Option Bool)
    (spanCtx freshCtx : TraceContext) (c : ChatCompletionLike)
    (choice : ChatCompletionChoice) (m : ChatMessage)
    (calls : List ChatToolCall) (u : ChatUsage) (lat : Int)
    (hch : c.choices = some [choice])
    (hm : choice.message = some m)
    (hcontent : (normalizeContent rt m.content).content ≠ "")
    (htc : m.tool_calls = some calls)
    (hnamed : ∀ call ∈ calls, (activeToolCall call).isSome)
    (hlegacy : m.function_call = none)
    (husage : c.usage = some u) :
    filterKind .message (wrappedCreate rt noFail (resolveOptions {})
        (some { model := pm, stream := streamFlag, messages := some msgs })
        spanCtx freshCtx (.succeeds { stream := none, completion := c }) lat).trace
      = emitPromptMessages rt (resolveOptions {}) (some msgs) spanCtx pm
        ++ [RecOp.message (buildMessagePayload (resolveOptions {}).provider
             (jsCoalesce c.model pm) (toMessageRole m.role "assistant")
             (normalizeContent rt m.content) spanCtx c.id none)]
    ∧ (emitPromptMessages rt (resolveOptions {}) (some msgs) spanCtx pm).length
        = msgs.length
    ∧ countKind .toolCall (wrappedCreate rt noFail (resolveOptions {})
        (some { model := pm, stream := streamFlag, messages := some msgs })
        spanCtx freshCtx (.succeeds { stream := none, completion := c }) lat).trace
      = calls.length
    ∧ countKind .usage (wrappedCreate rt noFail (resolveOptions {})
        (some { model := pm, stream := streamFlag, messages := some msgs })
        spanCtx freshCtx (.succeeds { stream := none, completion := c }) lat).trace
      = 1
    ∧ filterKind .toolResult (wrappedCreate rt noFail (resolveOptions {})
        (some { model := pm, stream := streamFlag, messages := some msgs })
        spanCtx freshCtx (.succeeds { stream := none, completion := c }) lat).trace
      = [RecOp.toolResult
          { provider := (resolveOptions {}).provider
            model := jsCoalesce c.model pm
            requestId := c.id
            tool := (resolveOptions {}).operationName
            output := summarizeResult (some c)
            ok := true
            latencyMs := lat
            ctx := spanCtx }]
    ∧ filterKind .spanEnd (wrappedCreate rt noFail (resolveOptions {})
        (some { model := pm, stream := streamFlag, messages := some msgs })
        spanCtx freshCtx (.succeeds { stream := none, completion := c }) lat).trace
      = [RecOp.spanEnd "ok"
          { latencyMs := lat
            model := jsCoalesce c.model pm
            stream := none
            error := none } spanCtx]
    ∧ ∀ op ∈ (wrappedCreate rt noFail (resolveOptions {})
        (some { model := pm, stream := streamFlag, messages := some msgs })
        spanCtx freshCtx (.succeeds { stream := none, completion := c }) lat).trace,
        op.ctxOf = none ∨ op.ctxOf = some spanCtx := by
  have hns : isStreamLike { stream := none, completion := c } = false := rfl
  have hchoice : emitChoice rt (resolveOptions {}) spanCtx (jsCoalesce c.model pm)
      c.id choice
      = [RecOp.message (buildMessagePayload (resolveOptions {}).provider
           (jsCoalesce c.model pm) (toMessageRole m.role "assistant")
           (normalizeContent rt m.content) spanCtx c.id none)]
        ++ toolCallOps rt (resolveOptions {}) spanCtx (jsCoalesce c.model pm) c.id
             choice.finish_reason (some calls) := by
    have hTC : (resolveOptions {}).emitToolCalls = true := rfl
    rw [emitChoice_of_message rt (resolveOptions {}) spanCtx (jsCoalesce c.model pm)
      c.id hm]
    rw [htc, hlegacy, legacyToolCallOps_nil,
      choiceMessageOps_emit rt spanCtx (jsCoalesce c.model pm) c.id rfl hcontent,
      hTC]
    simp
  have hart : emitCompletionArtifacts rt (resolveOptions {}) (some c) spanCtx pm
      = emitChoice rt (resolveOptions {}) spanCtx (jsCoalesce c.model pm) c.id choice
        ++ [RecOp.usage
            { provider := (resolveOptions {}).provider
              model := jsCoalesce c.model pm
              requestId := c.id
              inputTokens := u.prompt_tokens
              outputTokens := u.completion_tokens
              extTotalTokens := u.total_tokens
              ctx := spanCtx }] := by
    have hU : (resolveOptions {}).emitUsage = true := rfl
    rw [emitCompletionArtifacts_some, hch, husage,
      choicesOps_enabled rt spanCtx (jsCoalesce c.model pm) c.id [choice] rfl,
      usageOps_some, hU]
    simp
  have htrace : (wrappedCreate rt noFail (resolveOptions {})
      (some { model := pm, stream := streamFlag, messages := some msgs })
      spanCtx freshCtx (.succeeds { stream := none, completion := c }) lat).trace
      = emitPromptMessages rt (resolveOptions {}) (some msgs) spanCtx pm
        ++ RecOp.callUnderlying
        :: (([RecOp.message (buildMessagePayload (resolveOptions {}).provider
                (jsCoalesce c.model pm) (toMessageRole m.role "assistant")
                (normalizeContent rt m.content) spanCtx c.id none)]
              ++ toolCallOps rt (resolveOptions {}) spanCtx (jsCoalesce c.model pm)
                   c.id choice.finish_reason (some calls)
              ++ [RecOp.usage
                  { provider := (resolveOptions {}).provider
                    model := jsCoalesce c.model pm
                    requestId := c.id
                    inputTokens := u.prompt_tokens
                    outputTokens := u.completion_tokens
                    extTotalTokens := u.total_tokens
                    ctx := spanCtx }])
            ++ [RecOp.toolResult
                { provider := (resolveOptions {}).provider
                  model := jsCoalesce c.model pm
                  requestId := c.id
                  tool := (resolveOptions {}).operationName
                  output := summarizeResult (some c)
                  ok := true
                  latencyMs := lat
                  ctx := spanCtx }]
            ++ [RecOp.spanEnd "ok"
                { latencyMs := lat
                  model := jsCoalesce c.model pm
                  stream := none
                  error := none } spanCtx]) := by
    rw [wrappedCreate_success rt (resolveOptions {})
      (some { model := pm, stream := streamFlag, messages := some msgs })
      spanCtx freshCtx { stream := none, completion := c } lat hns]
    show emitPromptMessages rt (resolveOptions {}) (some msgs) spanCtx pm
        ++ RecOp.callUnderlying
        :: (emitCompletionArtifacts rt (resolveOptions {}) (some c) spanCtx pm
            ++ emitSuccessResult (resolveOptions {}) c spanCtx pm lat
            ++ finalizeSpanOps (some spanCtx) "ok"
                { latencyMs := lat
                  model := jsCoalesce c.model pm
                  stream := none
                  error := none }) = _
    rw [hart, hchoice, emitSuccessResult_enabled c spanCtx pm lat rfl,
      finalizeSpanOps_some]
  have htcself : filterKind .toolCall (toolCallOps rt (resolveOptions {}) spanCtx
      (jsCoalesce c.model pm) c.id choice.finish_reason (some calls))
      = toolCallOps rt (resolveOptions {}) spanCtx (jsCoalesce c.model pm) c.id
          choice.finish_reason (some calls) :=
    filterKind_eq_self (fun op hop =>
      (toolCallOps_mem rt (resolveOptions {}) spanCtx (jsCoalesce c.model pm) c.id
        choice.finish_reason (some calls) op hop).1)
  refine ⟨?_, length_prompts_enabled rt msgs spanCtx pm rfl, ?_, ?_, ?_, ?_, ?_⟩
  · rw [htrace]
    simp only [filterKind_append, filterKind_marker_cons OpKind.message (by decide),
      filterKind_singleton, filterKind_prompts_message,
      filterKind_toolCallOps_ne rt (resolveOptions {}) spanCtx
        (jsCoalesce c.model pm) c.id choice.finish_reason (some calls)
        (k := OpKind.message) (by decide)]
    simp [RecOp.kind]
  · rw [htrace]
    simp only [countKind, filterKind_append,
      filterKind_marker_cons OpKind.toolCall (by decide), filterKind_singleton,
      filterKind_prompts_ne rt (resolveOptions {}) (some msgs) spanCtx pm
        (k := OpKind.toolCall) (by decide), htcself]
    simp [RecOp.kind,
      length_toolCallOps rt (resolveOptions {}) spanCtx (jsCoalesce c.model pm)
        c.id choice.finish_reason calls hnamed]
  · rw [htrace]
    simp only [countKind, filterKind_append,
      filterKind_marker_cons OpKind.usage (by decide), filterKind_singleton,
      filterKind_prompts_ne rt (resolveOptions {}) (some msgs) spanCtx pm
        (k := OpKind.usage) (by decide),
      filterKind_toolCallOps_ne rt (resolveOptions {}) spanCtx
        (jsCoalesce c.model pm) c.id choice.finish_reason (some calls)
        (k := OpKind.usage) (by decide)]
    simp [RecOp.kind]
  · rw [htrace]
    simp only [filterKind_append,
      filterKind_marker_cons OpKind.toolResult (by decide), filterKind_singleton,
      filterKind_prompts_ne rt (resolveOptions {}) (some msgs) spanCtx pm
        (k := OpKind.toolResult) (by decide),
      filterKind_toolCallOps_ne rt (resolveOptions {}) spanCtx
        (jsCoalesce c.model pm) c.id choice.finish_reason (some calls)
        (k := OpKind.toolResult) (by decide)]
    simp [RecOp.kind]
  · rw [htrace]
    simp only [filterKind_append,
      filterKind_marker_cons OpKind.spanEnd (by decide), filterKind_singleton,
      filterKind_prompts_ne rt (resolveOptions {}) (some msgs) spanCtx pm
        (k := OpKind.spanEnd) (by decide),
      filterKind_toolCallOps_ne rt (resolveOptions {}) spanCtx
        (jsCoalesce c.model pm) c.id choice.finish_reason (some calls)
        (k := OpKind.spanEnd) (by decide)]
    simp [RecOp.kind]
  · rw [htrace]
    intro op hop
    rcases List.mem_append.mp hop with hP | hrest
    · exact Or.inr (emitPromptMessages_mem rt (resolveOptions {}) (some msgs)
        spanCtx pm op hP).2
    · rcases List.mem_cons.mp hrest with hcu | hrest2
      · subst hcu
        exact Or.inl rfl
      · rcases List.mem_append.mp hrest2 with h3 | hse
        · rcases List.mem_append.mp h3 with h4 | htr
          · rcases List.mem_append.mp h4 with h5 | husg
            · rcases List.mem_append.mp h5 with hmsg | htcm
              · simp only [List.mem_singleton] at hmsg
                subst hmsg
                exact Or.inr rfl
              · exact Or.inr (toolCallOps_mem rt (resolveOptions {}) spanCtx
                  (jsCoalesce c.model pm) c.id choice.finish_reason (some calls)
                  op htcm).2
            · simp only [List.mem_singleton] at husg
              subst husg
              exact Or.inr rfl
          · simp only [List.mem_singleton] at htr
            subst htr
            exact Or.inr rfl
        · simp only [List.mem_singleton] at hse
          subst hse
          exact Or.inr rfl

/-- Prompt message used by concrete witnesses. -/
def msgW : ChatMessage :=
  { role := .vStr "user", content := .vStr "hi", name := none
    tool_calls := none, function_call := none }

/-- Named tool call used by concrete witnesses. -/
def callW : ChatToolCall :=
  { id := some "tool_1"
    func := some { name := some "lookupWeather", arguments := some "args" } }

/-- Assistant message with one named tool call used by concrete witnesses. -/
def mW : ChatMessage :=
  { role := .vStr "assistant", content := .vStr "Hello", name := none
    tool_calls := some [callW], function_call := none }

/-- Completion choice used by concrete witnesses. -/
def choiceW : ChatCompletionChoice :=
  { index := some 0, finish_reason := some "stop", message := some mW }

/-- Usage block used by concrete witnesses. -/
def uW : ChatUsage :=
  { prompt_tokens := some 12, completion_tokens := some 6, total_tokens := some 18 }

/-- Completion used by concrete witnesses. -/
def compW : ChatCompletionLike :=
  { id := some "cmpl-123", model := some "gpt-4o", created := some 1
    choices := some [choiceW], usage := some uW }

/-- C4 witness: a concrete one-message, one-tool-call, one-usage call under
default options. -/
theorem c4_full_event_set_witness :
    countKind .toolCall (wrappedCreate rt0 noFail (resolveOptions {})
      (some { model := some "gpt-4o", stream := none, messages := some [msgW] })
      ctxA ctxB (.succeeds { stream := none, completion := compW }) 42).trace = 1
    ∧ countKind .usage (wrappedCreate rt0 noFail (resolveOptions {})
      (some { model := some "gpt-4o", stream := none, messages := some [msgW] })
      ctxA ctxB (.succeeds { stream := none, completion := compW }) 42).trace = 1 := by
  have h := c4_full_event_set rt0 [msgW] (some "gpt-4o") none ctxA ctxB compW
    choiceW mW [callW] uW 42 rfl rfl (by decide) rfl (by decide) rfl rfl
  exact ⟨h.2.2.1, h.2.2.2.1⟩

/-- Caller options disabling prompt, usage and span emission, as in the
reduced-configuration scenario. -/
def disabledTrioOptions : OpenAIAdapterOptions :=
  { emitPrompts := some false, emitUsage := some false, emitSpan := some false }

/-- C7 counterexample: the claim asserts that, on a call that would under
default options produce all six event kinds, disabling emitPrompts,
emitUsage and emitSpan leaves exactly two recorded events (the assistant
message and the tool-result). On the concrete call below, which under
default options does produce all six kinds, the reduced configuration
still records a tool-call event and therefore three events, not two. -/
theorem c7_counterexample :
    countKind .message (wrappedCreate rt0 noFail (resolveOptions {})
        (some { model := some "gpt-4o", stream := none, messages := some [msgW] })
        ctxA ctxB (.succeeds { stream := none, completion := compW }) 5).trace = 2
    ∧ countKind .toolCall (wrappedCreate rt0 noFail (resolveOptions {})
        (some { model := some "gpt-4o", stream := none, messages := some [msgW] })
        ctxA ctxB (.succeeds { stream := none, completion := compW }) 5).trace = 1
    ∧ countKind .usage (wrappedCreate rt0 noFail (resolveOptions {})
        (some { model := some "gpt-4o", stream := none, messages := some [msgW] })
        ctxA ctxB (.succeeds { stream := none, completion := compW }) 5).trace = 1
    ∧ countKind .toolResult (wrappedCreate rt0 noFail (resolveOptions {})
        (some { model := some "gpt-4o", stream := none, messages := some [msgW] })
        ctxA ctxB (.succeeds { stream := none, completion := compW }) 5).trace = 1
    ∧ countKind .spanEnd (wrappedCreate rt0 noFail (resolveOptions {})
        (some { model := some "gpt-4o", stream := none, messages := some [msgW] })
        ctxA ctxB (.succeeds { stream := none, completion := compW }) 5).trace = 1
    ∧ countKind .message (wrappedCreate rt0 noFail
        (resolveOptions disabledTrioOptions)
        (some { model := some "gpt-4o", stream := none, messages := some [msgW] })
        ctxA ctxB (.succeeds { stream := none, completion := compW }) 5).trace = 1
    ∧ countKind .toolCall (wrappedCreate rt0 noFail
        (resolveOptions disabledTrioOptions)
        (some { model := some "gpt-4o", stream := none, messages := some [msgW] })
        ctxA ctxB (.succeeds { stream := none, completion := compW }) 5).trace = 1
    ∧ countKind .usage (wrappedCreate rt0 noFail
        (resolveOptions disabledTrioOptions)
        (some { model := some "gpt-4o", stream := none, messages := some [msgW] })
        ctxA ctxB (.succeeds { stream := none, completion := compW }) 5).trace = 0
    ∧ countKind .toolResult (wrappedCreate rt0 noFail
        (resolveOptions disabledTrioOptions)
        (some { model := some "gpt-4o", stream := none, messages := some [msgW] })
        ctxA ctxB (.succeeds { stream := none, completion := compW }) 5).trace = 1
    ∧ countKind .spanEnd (wrappedCreate rt0 noFail
        (resolveOptions disabledTrioOptions)
        (some { model := some "gpt-4o", stream := none, messages := some [msgW] })
        ctxA ctxB (.succeeds { stream := none, completion := compW }) 5).trace = 0 := by
  exact ⟨rfl, rfl, rfl, rfl, rfl, rfl, rfl, rfl, rfl, rfl⟩

/-- C7 amended: disabling emitPrompts, emitUsage and emitSpan on a call that
would under default options produce all six event kinds leaves exactly the
assistant message event, one tool-call event per named tool call, and the
tool-result event — tool-call emission is governed by the still-enabled
emitToolCalls switch — and no prompt, usage or span event. -/
theorem c7_amended_disabled_trio (rt : JsRuntime) (msgs : List ChatMessage)
    (pm : Option String) (streamFlag : Option Bool)
    (spanCtx freshCtx : TraceContext) (c : ChatCompletionLike)
    (choice : ChatCompletionChoice) (m : ChatMessage)
    (calls : List ChatToolCall) (u : ChatUsage) (lat : Int)
    (hch : c.choices = some [choice])
    (hm : choice.message = some m)
    (hcontent : (normalizeContent rt m.content).content ≠ "")
    (htc : m.tool_calls = some calls)
    (hnamed : ∀ call ∈ calls, (activeToolCall call).isSome)
    (hlegacy : m.function_call = none)
    (husage : c.usage = some u) :
    (wrappedCreate rt noFail (resolveOptions disabledTrioOptions)
        (some { model := pm, stream := streamFlag, messages := some msgs })
        spanCtx freshCtx (.succeeds { stream := none, completion := c }) lat).trace
      = RecOp.callUnderlying
        :: ([RecOp.message (buildMessagePayload
              (resolveOptions disabledTrioOptions).provider
              (jsCoalesce c.model pm) (toMessageRole m.role "assistant")
              (normalizeContent rt m.content) freshCtx c.id none)]
            ++ toolCallOps rt (resolveOptions disabledTrioOptions) freshCtx
                 (jsCoalesce c.model pm) c.id choice.finish_reason (some calls)
            ++ [RecOp.toolResult
                { provider := (resolveOptions disabledTrioOptions).provider
                  model := jsCoalesce c.model pm
                  requestId := c.id
                  tool := (resolveOptions disabledTrioOptions).operationName
                  output := summarizeResult (some c)
                  ok := true
                  latencyMs := lat
                  ctx := freshCtx }])
    ∧ (toolCallOps rt (resolveOptions disabledTrioOptions) freshCtx
         (jsCoalesce c.model pm) c.id choice.finish_reason (some calls)).length
        = calls.length
    ∧ (∀ op ∈ toolCallOps rt (resolveOptions disabledTrioOptions) freshCtx
         (jsCoalesce c.model pm) c.id choice.finish_reason (some calls),
        op.kind = .toolCall) := by
  have hns : isStreamLike { stream := none, completion := c } = false := rfl
  refine ⟨?_, length_toolCallOps rt (resolveOptions disabledTrioOptions) freshCtx
      (jsCoalesce c.model pm) c.id choice.finish_reason calls hnamed,
    fun op hop => (toolCallOps_mem rt (resolveOptions disabledTrioOptions) freshCtx
      (jsCoalesce c.model pm) c.id choice.finish_reason (some calls) op hop).1⟩
  have hchoice : emitChoice rt (resolveOptions disabledTrioOptions) freshCtx
      (jsCoalesce c.model pm) c.id choice
      = [RecOp.message (buildMessagePayload (resolveOptions disabledTrioOptions).provider
           (jsCoalesce c.model pm) (toMessageRole m.role "assistant")
           (normalizeContent rt m.content) freshCtx c.id none)]
        ++ toolCallOps rt (resolveOptions disabledTrioOptions) freshCtx
             (jsCoalesce c.model pm) c.id choice.finish_reason (some calls) := by
    have hTC : (resolveOptions disabledTrioOptions).emitToolCalls = true := rfl
    rw [emitChoice_of_message rt (resolveOptions disabledTrioOptions) freshCtx
      (jsCoalesce c.model pm) c.id hm]
    rw [htc, hlegacy, legacyToolCallOps_nil,
      choiceMessageOps_emit rt freshCtx (jsCoalesce c.model pm) c.id rfl hcontent,
      hTC]
    simp
  have hart : emitCompletionArtifacts rt (resolveOptions disabledTrioOptions)
      (some c) freshCtx pm
      = emitChoice rt (resolveOptions disabledTrioOptions) freshCtx
          (jsCoalesce c.model pm) c.id choice := by
    have hU : (resolveOptions disabledTrioOptions).emitUsage = false := rfl
    rw [emitCompletionArtifacts_some, hch, husage,
      choicesOps_enabled rt freshCtx (jsCoalesce c.model pm) c.id [choice] rfl,
      usageOps_some, hU]
    simp
  rw [wrappedCreate_success rt (resolveOptions disabledTrioOptions)
    (some { model := pm, stream := streamFlag, messages := some msgs })
    spanCtx freshCtx { stream := none, completion := c } lat hns]
  show emitPromptMessages rt (resolveOptions disabledTrioOptions) (some msgs)
      freshCtx pm
      ++ RecOp.callUnderlying
      :: (emitCompletionArtifacts rt (resolveOptions disabledTrioOptions) (some c)
            freshCtx pm
          ++ emitSuccessResult (resolveOptions disabledTrioOptions) c freshCtx pm lat
          ++ finalizeSpanOps none "ok"
              { latencyMs := lat
                model := jsCoalesce c.model pm
                stream := none
                error := none }) = _
  rw [emitPromptMessages_disabled rt (some msgs) freshCtx pm rfl, hart, hchoice,
    emitSuccessResult_enabled c freshCtx pm lat rfl]
  simp [finalizeSpanOps]

/-- C7 amended witness: the concrete reduced-configuration call records the
marker, the assistant message, one tool-call event and the tool-result. -/
theorem c7_amended_disabled_trio_witness :
    (wrappedCreate rt0 noFail (resolveOptions disabledTrioOptions)
        (some { model := some "gpt-4o", stream := none, messages := some [msgW] })
        ctxA ctxB (.succeeds { stream := none, completion := compW }) 5).trace
      = RecOp.callUnderlying
        :: ([RecOp.message (buildMessagePayload
              (resolveOptions disabledTrioOptions).provider
              (jsCoalesce compW.model (some "gpt-4o"))
              (toMessageRole mW.role "assistant")
              (normalizeContent rt0 mW.content) ctxB compW.id none)]
            ++ toolCallOps rt0 (resolveOptions disabledTrioOptions) ctxB
                 (jsCoalesce compW.model (some "gpt-4o")) compW.id
                 choiceW.finish_reason (some [callW])
            ++ [RecOp.toolResult
                { provider := (resolveOptions disabledTrioOptions).provider
                  model := jsCoalesce compW.model (some "gpt-4o")
                  requestId := compW.id
                  tool := (resolveOptions disabledTrioOptions).operationName
                  output := summarizeResult (some compW)
                  ok := true
                  latencyMs := 5
                  ctx := ctxB }]) :=
  (c7_amended_disabled_trio rt0 [msgW] (some "gpt-4o") none ctxA ctxB compW
    choiceW mW [callW] uW 5 rfl rfl (by decide) rfl (by decide) rfl rfl).1

/-- C8: for a successful non-streaming call, the trace is exactly the prompt
message events, then the underlying invocation, then the completion
artifacts, then the terminal tool-result, then the span close — prompt
events precede the call, and the post-call segments hold only operations
of their kind, in that relative order. -/
theorem c8_ordering (rt : JsRuntime) (opts : ResolvedOpenAIOptions)
    (params : Option ChatParams) (spanCtx freshCtx : TraceContext)
    (v : SdkValue) (lat : Int) (hns : isStreamLike v = false) :
    (wrappedCreate rt noFail opts params spanCtx freshCtx (.succeeds v) lat).trace
      = emitPromptMessages rt opts (params.bind (fun p => p.messages))
          (chatCtx opts spanCtx freshCtx) (params.bind (fun p => p.model))
        ++ RecOp.callUnderlying
        :: (emitCompletionArtifacts rt opts (some v.completion)
              (chatCtx opts spanCtx freshCtx) (params.bind (fun p => p.model))
            ++ emitSuccessResult opts v.completion (chatCtx opts spanCtx freshCtx)
                (params.bind (fun p => p.model)) lat
            ++ finalizeSpanOps (chatSpanToken opts spanCtx) "ok"
                { latencyMs := lat
                  model := jsCoalesce v.completion.model
                             (params.bind (fun p => p.model))
                  stream := none
                  error := none })
    ∧ (∀ op ∈ emitPromptMessages rt opts (params.bind (fun p => p.messages))
          (chatCtx opts spanCtx freshCtx) (params.bind (fun p => p.model)),
        op.kind = .message)
    ∧ (∀ op ∈ emitCompletionArtifacts rt opts (some v.completion)
          (chatCtx opts spanCtx freshCtx) (params.bind (fun p => p.model)),
        op.kind = .message ∨ op.kind = .toolCall ∨ op.kind = .usage)
    ∧ (∀ op ∈ emitSuccessResult opts v.completion (chatCtx opts spanCtx freshCtx)
          (params.bind (fun p => p.model)) lat,
        op.kind = .toolResult)
    ∧ (∀ op ∈ finalizeSpanOps (chatSpanToken opts spanCtx) "ok"
          { latencyMs := lat
            model := jsCoalesce v.completion.model (params.bind (fun p => p.model))
            stream := none
            error := none },
        op.kind = .spanEnd) := by
  refine ⟨congrArg WrappedOutcome.trace
      (wrappedCreate_success rt opts params spanCtx freshCtx v lat hns),
    fun op hop => (emitPromptMessages_mem rt opts _ _ _ op hop).1,
    fun op hop => (emitCompletionArtifacts_mem rt opts _ _ _ op hop).1,
    fun op hop => (emitSuccessResult_mem opts _ _ _ lat op hop).1,
    fun op hop => (finalizeSpanOps_mem _ _ _ op hop).1⟩

/-- C8 witness: the ordering decomposition at a concrete successful call. -/
theorem c8_ordering_witness :
    (wrappedCreate rt0 noFail (resolveOptions {})
        (some { model := some "gpt-4o", stream := none, messages := some [msgW] })
        ctxA ctxB (.succeeds { stream := none, completion := compW }) 7).trace
      = emitPromptMessages rt0 (resolveOptions {})
          ((some { model := some "gpt-4o", stream := none
                   messages := some [msgW] } : Option ChatParams).bind
            (fun p => p.messages))
          (chatCtx (resolveOptions {}) ctxA ctxB)
          ((some { model := some "gpt-4o", stream := none
                   messages := some [msgW] } : Option ChatParams).bind
            (fun p => p.model))
        ++ RecOp.callUnderlying
        :: (emitCompletionArtifacts rt0 (resolveOptions {}) (some compW)
              (chatCtx (resolveOptions {}) ctxA ctxB)
              ((some { model := some "gpt-4o", stream := none
                       messages := some [msgW] } : Option ChatParams).bind
                (fun p => p.model))
            ++ emitSuccessResult (resolveOptions {}) compW
                (chatCtx (resolveOptions {}) ctxA ctxB)
                ((some { model := some "gpt-4o", stream := none
                         messages := some [msgW] } : Option ChatParams).bind
                  (fun p => p.model)) 7
            ++ finalizeSpanOps (chatSpanToken (resolveOptions {}) ctxA) "ok"
                { latencyMs := 7
                  model := jsCoalesce compW.model
                             ((some { model := some "gpt-4o", stream := none
                                      messages := some [msgW] } :
                                Option ChatParams).bind (fun p => p.model))
                  stream := none
                  error := none }) :=
  (c8_ordering rt0 (resolveOptions {})
    (some { model := some "gpt-4o", stream := none, messages := some [msgW] })
    ctxA ctxB { stream := none, completion := compW } 7 rfl).1

lemma filterKind_choicesOps_ne (rt : JsRuntime) (opts : ResolvedOpenAIOptions)
    (ctx : TraceContext) (resolvedModel : Option String)
    (requestId : Option String) (choices : Option (List ChatCompletionChoice))
    {k : OpKind} (hk1 : k ≠ .message) (hk2 : k ≠ .toolCall) :
    filterKind k (choicesOps rt opts ctx resolvedModel requestId choices) = [] :=
  filterKind_eq_nil (fun op hop => by
    rcases (choicesOps_mem rt opts ctx resolvedModel requestId choices op hop).1
      with h | h
    · exact ne_of_eq_of_ne h hk1.symm
    · exact ne_of_eq_of_ne h hk2.symm)

/-- C5: a stream-like result resolves the caller promise at once with the
caller-facing stream: the trace recorded before the promise settles
contains no usage, tool-result or span-close operation, the returned
stream does not depend on how the final accessor later settles, and the
single deferred finalization — attached once to the final promise —
records, on a resolution carrying usage, exactly one usage event, one
ok tool-result and one ok span close whose attributes include the
stream flag. -/
theorem c5_streaming (rt : JsRuntime) (msgsOpt : Option (List ChatMessage))
    (pm : Option String) (streamFlag : Option Bool)
    (spanCtx freshCtx : TraceContext) (s : StreamInfo)
    (r rAlt : JsResult (Option ChatCompletionLike))
    (compView : ChatCompletionLike) (c : ChatCompletionLike) (u : ChatUsage)
    (lat finLat : Int)
    (hacc : s.finalChatCompletion = some (.settles r))
    (husage : c.usage = some u) :
    (wrappedCreate rt noFail (resolveOptions {})
        (some { model := pm, stream := streamFlag, messages := msgsOpt })
        spanCtx freshCtx
        (.succeeds { stream := some s, completion := compView }) lat).result
      = .ok (.stream s (.deferred r))
    ∧ countKind .usage (wrappedCreate rt noFail (resolveOptions {})
        (some { model := pm, stream := streamFlag, messages := msgsOpt })
        spanCtx freshCtx
        (.succeeds { stream := some s, completion := compView }) lat).trace = 0
    ∧ countKind .toolResult (wrappedCreate rt noFail (resolveOptions {})
        (some { model := pm, stream := streamFlag, messages := msgsOpt })
        spanCtx freshCtx
        (.succeeds { stream := some s, completion := compView }) lat).trace = 0
    ∧ countKind .spanEnd (wrappedCreate rt noFail (resolveOptions {})
        (some { model := pm, stream := streamFlag, messages := msgsOpt })
        spanCtx freshCtx
        (.succeeds { stream := some s, completion := compView }) lat).trace = 0
    ∧ (handleStreamResult { s with finalChatCompletion := some (.settles rAlt) }).1
        = { s with finalChatCompletion := some (.settles rAlt) }
    ∧ countKind .usage (finalizeStream rt (resolveOptions {}) spanCtx pm
        (some spanCtx) finLat (.deferred (.ok (some c)))) = 1
    ∧ filterKind .toolResult (finalizeStream rt (resolveOptions {}) spanCtx pm
        (some spanCtx) finLat (.deferred (.ok (some c))))
      = [RecOp.toolResult
          { provider := (resolveOptions {}).provider
            model := jsCoalesce c.model pm
            requestId := c.id
            tool := (resolveOptions {}).operationName
            output := summarizeResult (some c)
            ok := true
            latencyMs := finLat
            ctx := spanCtx }]
    ∧ filterKind .spanEnd (finalizeStream rt (resolveOptions {}) spanCtx pm
        (some spanCtx) finLat (.deferred (.ok (some c))))
      = [RecOp.spanEnd "ok"
          { latencyMs := finLat
            model := jsCoalesce c.model pm
            stream := some true
            error := none } spanCtx] := by
  have hshape : streamShapeLike s = true := by
    unfold streamShapeLike
    rw [hacc]
    rfl
  have hres : resolveFinalCompletion s = (s, some r) := by
    unfold resolveFinalCompletion
    rw [hacc]
  have hhs : handleStreamResult s = (s, .deferred r) := by
    unfold handleStreamResult
    rw [hres]
  have hdec := wrappedCreate_stream rt (resolveOptions {})
    (some { model := pm, stream := streamFlag, messages := msgsOpt })
    spanCtx freshCtx s compView lat hshape
  rw [hhs] at hdec
  have hfin : finalizeStream rt (resolveOptions {}) spanCtx pm (some spanCtx)
      finLat (.deferred (.ok (some c)))
      = emitCompletionArtifacts rt (resolveOptions {}) (some c) spanCtx pm
        ++ [RecOp.toolResult
            { provider := (resolveOptions {}).provider
              model := jsCoalesce c.model pm
              requestId := c.id
              tool := (resolveOptions {}).operationName
              output := summarizeResult (some c)
              ok := true
              latencyMs := finLat
              ctx := spanCtx }]
        ++ [RecOp.spanEnd "ok"
            { latencyMs := finLat
              model := jsCoalesce c.model pm
              stream := some true
              error := none } spanCtx] := by
    show streamFinishOk rt (resolveOptions {}) (some c) spanCtx pm (some spanCtx)
        finLat = _
    unfold streamFinishOk
    rw [show (resolveOptions {}).emitToolResults = true from rfl]
    simp [finalizeSpanOps]
  have hartU : filterKind .usage (emitCompletionArtifacts rt (resolveOptions {})
      (some c) spanCtx pm)
      = [RecOp.usage
          { provider := (resolveOptions {}).provider
            model := jsCoalesce c.model pm
            requestId := c.id
            inputTokens := u.prompt_tokens
            outputTokens := u.completion_tokens
            extTotalTokens := u.total_tokens
            ctx := spanCtx }] := by
    rw [emitCompletionArtifacts_some, husage, filterKind_append,
      filterKind_choicesOps_ne rt (resolveOptions {}) spanCtx
        (jsCoalesce c.model pm) c.id c.choices (by decide) (by decide),
      usageOps_some,
      show (resolveOptions {}).emitUsage = true from rfl]
    simp [filterKind_singleton, RecOp.kind]
  refine ⟨?_, ?_, ?_, ?_, rfl, ?_, ?_, ?_⟩
  · rw [hdec]
  · rw [hdec]
    simp only [countKind, filterKind_append,
      filterKind_prompts_ne rt (resolveOptions {}) _ _ _
        (k := OpKind.usage) (by decide), filterKind_singleton]
    simp [RecOp.kind]
  · rw [hdec]
    simp only [countKind, filterKind_append,
      filterKind_prompts_ne rt (resolveOptions {}) _ _ _
        (k := OpKind.toolResult) (by decide), filterKind_singleton]
    simp [RecOp.kind]
  · rw [hdec]
    simp only [countKind, filterKind_append,
      filterKind_prompts_ne rt (resolveOptions {}) _ _ _
        (k := OpKind.spanEnd) (by decide), filterKind_singleton]
    simp [RecOp.kind]
  · rw [hfin]
    simp only [countKind, filterKind_append, hartU, filterKind_singleton]
    simp [RecOp.kind]
  · rw [hfin]
    simp only [filterKind_append,
      filterKind_artifacts_ne rt (resolveOptions {}) (some c) spanCtx pm
        (k := OpKind.toolResult) (by decide) (by decide) (by decide),
      filterKind_singleton]
    simp [RecOp.kind]
  · rw [hfin]
    simp only [filterKind_append,
      filterKind_artifacts_ne rt (resolveOptions {}) (some c) spanCtx pm
        (k := OpKind.spanEnd) (by decide) (by decide) (by decide),
      filterKind_singleton]
    simp [RecOp.kind]

/-- Stream with a direct final-completion accessor, used by witnesses. -/
def streamW : StreamInfo :=
  { finalChatCompletion := some (.settles (.ok (some compW)))
    tee := false
    toReadableStream := false
    teeThrows := none
    teeReadable := false
    teeFinal := .ok none }

/-- C5 witness: a concrete streaming call resolves with the stream and its
finalization records one usage event. -/
theorem c5_streaming_witness :
    (wrappedCreate rt0 noFail (resolveOptions {})
        (some { model := some "gpt-4.1", stream := some true
                messages := some [msgW] })
        ctxA ctxB (.succeeds { stream := some streamW, completion := compW })
        3).result
      = .ok (.stream streamW (.deferred (.ok (some compW))))
    ∧ countKind .usage (finalizeStream rt0 (resolveOptions {}) ctxA
        (some "gpt-4.1") (some ctxA) 9 (.deferred (.ok (some compW)))) = 1 := by
  have h := c5_streaming rt0 (some [msgW]) (some "gpt-4.1") (some true) ctxA ctxB
    streamW (.ok (some compW)) (.ok none) compW compW uW 3 9 rfl rfl
  exact ⟨h.1, h.2.2.2.2.2.1⟩

/-- Caller options enabling only the images namespace. -/
def imagesOnlyOptions : OpenAIAdapterOptions := { enableImagesApi := some true }

/-- Caller options enabling the responses, images and audio namespaces. -/
def allSurfacesOptions : OpenAIAdapterOptions :=
  { enableResponsesApi := some true
    enableImagesApi := some true
    enableAudioApi := some true }

/-- C6: with enableImagesApi set, the images surface is instrumented and one
call of the wrapped generate records exactly one tool-result and one span
close and zero message, usage or tool-call events, returning the original
result; with their switches set, the responses, images and audio surfaces
are each instrumented; with the switches unset, those surfaces are
returned unmodified. -/
theorem c6_images_namespace (rt : JsRuntime) (client : JsClient)
    (params : Option GenericParams) (spanCtx freshCtx : TraceContext)
    (v : Value) (lat : Int)
    (himg : (client.props "images").isNullish = false)
    (hresp : (client.props "responses").isNullish = false)
    (haud : (client.props "audio").isNullish = false) :
    proxyGetFull (resolveOptions imagesOnlyOptions) client "images"
      = .imagesWrapped (client.props "images")
    ∧ proxyGetFull (resolveOptions allSurfacesOptions) client "responses"
        = .responsesWrapped (client.props "responses")
    ∧ proxyGetFull (resolveOptions allSurfacesOptions) client "images"
        = .imagesWrapped (client.props "images")
    ∧ proxyGetFull (resolveOptions allSurfacesOptions) client "audio"
        = .audioWrapped (client.props "audio")
    ∧ countKind .toolResult (wrappedImagesGenerate rt
        (resolveOptions imagesOnlyOptions) params spanCtx freshCtx
        (.ok v) lat).1 = 1
    ∧ countKind .spanEnd (wrappedImagesGenerate rt
        (resolveOptions imagesOnlyOptions) params spanCtx freshCtx
        (.ok v) lat).1 = 1
    ∧ countKind .message (wrappedImagesGenerate rt
        (resolveOptions imagesOnlyOptions) params spanCtx freshCtx
        (.ok v) lat).1 = 0
    ∧ countKind .usage (wrappedImagesGenerate rt
        (resolveOptions imagesOnlyOptions) params spanCtx freshCtx
        (.ok v) lat).1 = 0
    ∧ countKind .toolCall (wrappedImagesGenerate rt
        (resolveOptions imagesOnlyOptions) params spanCtx freshCtx
        (.ok v) lat).1 = 0
    ∧ (wrappedImagesGenerate rt (resolveOptions imagesOnlyOptions) params
        spanCtx freshCtx (.ok v) lat).2 = .ok v
    ∧ proxyGetFull (resolveOptions {}) client "responses"
        = .plain (client.props "responses")
    ∧ proxyGetFull (resolveOptions {}) client "images"
        = .plain (client.props "images")
    ∧ proxyGetFull (resolveOptions {}) client "audio"
        = .plain (client.props "audio") := by
  have htrace : (wrappedImagesGenerate rt (resolveOptions imagesOnlyOptions)
      params spanCtx freshCtx (.ok v) lat).1
      = [RecOp.toolResult
          { provider := (resolveOptions imagesOnlyOptions).provider
            model := extractModel params
            requestId := none
            tool := "openai.images.generate"
            output := summarizeResult none
            ok := true
            latencyMs := lat
            ctx := spanCtx }]
        ++ [RecOp.spanEnd "ok"
            { latencyMs := lat
              model := extractModel params
              stream := none
              error := none } spanCtx] := by
    unfold wrappedImagesGenerate beginSpan emitAuxiliarySuccess
    rw [show (resolveOptions imagesOnlyOptions).emitSpan = true from rfl,
      show (resolveOptions imagesOnlyOptions).emitToolResults = true from rfl]
    simp [finalizeSpanOps]
  refine ⟨?_, ?_, ?_, ?_, ?_, ?_, ?_, ?_, ?_, rfl, ?_, ?_, ?_⟩
  · simp [proxyGetFull, himg, resolveOptions, imagesOnlyOptions, DEFAULT_OPTIONS]
  · simp [proxyGetFull, hresp, resolveOptions, allSurfacesOptions, DEFAULT_OPTIONS]
  · simp [proxyGetFull, himg, resolveOptions, allSurfacesOptions, DEFAULT_OPTIONS]
  · simp [proxyGetFull, haud, resolveOptions, allSurfacesOptions, DEFAULT_OPTIONS]
  · rw [htrace]
    rfl
  · rw [htrace]
    rfl
  · rw [htrace]
    rfl
  · rw [htrace]
    rfl
  · rw [htrace]
    rfl
  · rcases hn : (client.props "responses").isNullish <;>
      simp [proxyGetFull, hn, resolveOptions, DEFAULT_OPTIONS]
  · rcases hn : (client.props "images").isNullish <;>
      simp [proxyGetFull, hn, resolveOptions, DEFAULT_OPTIONS]
  · rcases hn : (client.props "audio").isNullish <;>
      simp [proxyGetFull, hn, resolveOptions, DEFAULT_OPTIONS]

/-- C6 witness: a concrete client with an images namespace under the images
switch. -/
theorem c6_images_namespace_witness :
    proxyGetFull (resolveOptions imagesOnlyOptions) clientW "images"
      = .imagesWrapped (clientW.props "images")
    ∧ proxyGetFull (resolveOptions allSurfacesOptions) clientW "responses"
        = .responsesWrapped (clientW.props "responses")
    ∧ proxyGetFull (resolveOptions allSurfacesOptions) clientW "audio"
        = .audioWrapped (clientW.props "audio")
    ∧ countKind .toolResult (wrappedImagesGenerate rt0
        (resolveOptions imagesOnlyOptions)
        (some { model := .vStr "gpt-image" }) ctxA ctxB
        (.ok (Value.vObj [])) 11).1 = 1 := by
  have h := c6_images_namespace rt0 clientW
    (some { model := .vStr "gpt-image" }) ctxA ctxB (Value.vObj []) 11 rfl rfl rfl
  exact ⟨h.1, h.2.1, h.2.2.2.1, h.2.2.2.2.1⟩

lemma wrappedCreate_prompt_reject (rt : JsRuntime) (fail : RecOp → Option ErrValue)
    (opts : ResolvedOpenAIOptions) (params : Option ChatParams)
    (spanCtx freshCtx : TraceContext) (under : UnderlyingBehavior)
    (lat : Int) (e : ErrValue)
    (hfail : (recordOps fail (emitPromptMessages rt opts
        (params.bind (fun p => p.messages)) (chatCtx opts spanCtx freshCtx)
        (params.bind (fun p => p.model)))).2 = some e) :
    wrappedCreate rt fail opts params spanCtx freshCtx under lat
      = { trace := (recordOps fail (emitPromptMessages rt opts
            (params.bind (fun p => p.messages)) (chatCtx opts spanCtx freshCtx)
            (params.bind (fun p => p.model)))).1
          result := .thrown e } := by
  unfold wrappedCreate
  simp [hfail]

/-- C10: if the recorder rejects while prompt emission is being awaited, the
underlying create method is never invoked, the rejection propagates to
the caller, and no span close is ever recorded: the opened span stays
permanently unclosed. -/
theorem c10_prompt_emission_rejection (rt : JsRuntime)
    (fail : RecOp → Option ErrValue) (opts : ResolvedOpenAIOptions)
    (params : Option ChatParams) (spanCtx freshCtx : TraceContext)
    (under : UnderlyingBehavior) (lat : Int) (e : ErrValue)
    (hfail : (recordOps fail (emitPromptMessages rt opts
        (params.bind (fun p => p.messages)) (chatCtx opts spanCtx freshCtx)
        (params.bind (fun p => p.model)))).2 = some e) :
    (wrappedCreate rt fail opts params spanCtx freshCtx under lat).result
      = .thrown e
    ∧ RecOp.callUnderlying ∉
        (wrappedCreate rt fail opts params spanCtx freshCtx under lat).trace
    ∧ countKind .spanEnd
        (wrappedCreate rt fail opts params spanCtx freshCtx under lat).trace
      = 0 := by
  rw [wrappedCreate_prompt_reject rt fail opts params spanCtx freshCtx under lat
    e hfail]
  refine ⟨rfl, ?_, ?_⟩
  · intro hmem
    have hin := recordOps_sub fail (emitPromptMessages rt opts
      (params.bind (fun p => p.messages)) (chatCtx opts spanCtx freshCtx)
      (params.bind (fun p => p.model))) RecOp.callUnderlying hmem
    have hk := (emitPromptMessages_mem rt opts
      (params.bind (fun p => p.messages)) (chatCtx opts spanCtx freshCtx)
      (params.bind (fun p => p.model)) RecOp.callUnderlying hin).1
    exact absurd hk (by decide)
  · refine countKind_eq_zero (fun op hop => ?_)
    have hin := recordOps_sub fail (emitPromptMessages rt opts
      (params.bind (fun p => p.messages)) (chatCtx opts spanCtx freshCtx)
      (params.bind (fun p => p.model))) op hop
    have hk := (emitPromptMessages_mem rt opts
      (params.bind (fun p => p.messages)) (chatCtx opts spanCtx freshCtx)
      (params.bind (fun p => p.model)) op hin).1
    rw [hk]
    decide

/-- Recorder behavior rejecting every message operation, used by the C10
witness. -/
def failOnMessage : RecOp → Option ErrValue := fun op =>
  match op with
  | .message _ => some (ErrValue.str "sink rejected")
  | _ => none

/-- C10 witness: a concrete call whose first prompt message is rejected by
the recorder never invokes the underlying method and rejects with the
recorder error. -/
theorem c10_prompt_emission_rejection_witness :
    (wrappedCreate rt0 failOnMessage (resolveOptions {})
        (some { model := some "gpt-4o", stream := none, messages := some [msgW] })
        ctxA ctxB (.succeeds { stream := none, completion := compW }) 9).result
      = .thrown (ErrValue.str "sink rejected")
    ∧ RecOp.callUnderlying ∉
        (wrappedCreate rt0 failOnMessage (resolveOptions {})
          (some { model := some "gpt-4o", stream := none
                  messages := some [msgW] })
          ctxA ctxB (.succeeds { stream := none, completion := compW }) 9).trace := by
  have h := c10_prompt_emission_rejection rt0 failOnMessage (resolveOptions {})
    (some { model := some "gpt-4o", stream := none, messages := some [msgW] })
    ctxA ctxB (.succeeds { stream := none, completion := compW }) 9
    (ErrValue.str "sink rejected") rfl
  exact ⟨h.1, h.2.1⟩

end ProviderOpenAI
